import Mathlib

/-!
Verification development for the agent pipeline repository.

The definitions below are a shallow embedding of the Python sources under
`agents/graphs/` (chiefly `itp_generation_rev2.py`, `document_extraction.py`
and the orchestrator wiring).  Python dictionaries become Lean structures;
a key that may be absent or bound to `None` is modelled as `Option`;
machine-level effects (LLM calls, database reads, asset persistence) are
modelled as explicit oracle parameters carrying the value the collaborator
returns, with `Except String` representing a raised Python exception.
-/

/-- Truthiness of a possibly-missing / possibly-`None` string, as Python
`if x:` evaluates it: `None` and the empty string are falsy. -/
def truthyStr : Option String → Bool
  | none => false
  | some s => s ≠ ""

/-- Truthiness of a possibly-missing list value: `None` and `[]` are falsy. -/
def truthyList {α : Type} : Option (List α) → Bool
  | none => false
  | some l => !l.isEmpty

/-- Python `str(x)` / f-string interpolation of a possibly-`None` string:
`None` renders as `"None"`. -/
def pyStr : Option String → String
  | none => "None"
  | some s => s

/-- Python `a or b` for a possibly-`None` string `a` with a string fallback. -/
def pyOrStr : Option String → String → String
  | none, b => b
  | some s, b => if s = "" then b else s

/-- Python `a or b` for a possibly-`None` list `a` with a list fallback. -/
def pyOrList {α : Type} : Option (List α) → List α → List α
  | none, b => b
  | some l, b => if l.isEmpty then b else l

/-! Slugify, from itp_generation_rev2.py lines 194–205:

```python
def _slugify(text: str) -> str:
    if not text:
        return "unknown"
    text = text.strip().lower()
    text = re.sub(r"[^a-z0-9]+", "-", text)
    text = text.strip('-')
    text = re.sub(r"-+", "-", text)
    return text or "unknown"
```

`str.lower` is modelled for the ASCII range (the regular expression keeps
only `[a-z0-9]` afterwards, so the behaviour on the surviving characters
agrees with Python).  `re.sub(r"[^a-z0-9]+", "-", ·)` replaces every
maximal run of non-alphanumeric characters by a single dash, which is the
same as mapping every non-alphanumeric character to `'-'` and collapsing
adjacent dashes. -/

/-- Membership in `[a-z0-9]`. -/
def isAlnumLower (c : Char) : Bool :=
  (97 ≤ c.toNat && c.toNat ≤ 122) || (48 ≤ c.toNat && c.toNat ≤ 57)

/-- ASCII `str.lower` on one character. -/
def lowerChar (c : Char) : Char :=
  if 65 ≤ c.toNat && c.toNat ≤ 90 then Char.ofNat (c.toNat + 32) else c

/-- One step of `re.sub(r"[^a-z0-9]+", "-", ·)`: map a character that is not
in `[a-z0-9]` to `'-'`. -/
def dashify (c : Char) : Char :=
  if isAlnumLower c then c else '-'

/-- Collapse adjacent dashes (the run-collapsing part of both
`re.sub(r"[^a-z0-9]+", "-", ·)` and `re.sub(r"-+", "-", ·)`). -/
def dedupDash : List Char → List Char
  | [] => []
  | [c] => [c]
  | a :: b :: rest =>
    if a = '-' && b = '-' then dedupDash (b :: rest)
    else a :: dedupDash (b :: rest)

/-- Python `str.strip()` (whitespace from both ends). -/
def stripWs (l : List Char) : List Char :=
  ((l.dropWhile Char.isWhitespace).reverse.dropWhile Char.isWhitespace).reverse

/-- Python `str.strip('-')`. -/
def stripDash (l : List Char) : List Char :=
  ((l.dropWhile (· = '-')).reverse.dropWhile (· = '-')).reverse

/-- Embedding of the Python function, composing the steps above. -/
def _slugify (text : String) : String :=
  if text = "" then "unknown"
  else
    let l1 := (stripWs text.data).map lowerChar
    let l2 := dedupDash (l1.map dashify)
    let l3 := stripDash l2
    let l4 := dedupDash l3
    if l4.isEmpty then "unknown" else String.mk l4

/-! ITP generation pipeline (itp_generation_rev2.py).  State dictionaries are
embedded as structures whose `Option` fields stand for keys that may be
absent or bound to `None`. -/

namespace ITPGen

/-- An entry of `txt_project_documents` (a plain dict downstream of document
extraction; the ITP graph indexes `file_name`, `id` and `content` directly,
so a missing key raises). -/
structure ProjDoc where
  id : Option String
  file_name : Option String
  content : Option String
  project_id : Option String
  blob_url : Option String
  storage_path : Option String
deriving DecidableEq

/-- A `required_itps` entry, the `model_dump` of the `RequiredItp` pydantic
model.  `itp_type` is read by `generate_individual_itp_node` via
`.get("itp_type", "Unknown")` even though the model never produces it; the
open dict is modelled by carrying the field as an `Option`. -/
structure RequiredItp where
  itp_name : Option String
  scope : Option String
  triggering_documents : Option String
  priority : Option String
  estimated_items : Option Int
  itp_number : Option String
  revision_code : Option String
  itp_type : Option String
deriving DecidableEq

/-- An `itp_standards_pairs` entry (a dict produced by the LLM;
`applicable_spec_ids` is attached later by `match_standards_to_itps_node`). -/
structure StandardsPair where
  itp_name : Option String
  applicable_standards : Option (List String)
  reasoning : Option String
  applicable_spec_ids : Option (List String)
deriving DecidableEq

/-- An `applicable_standard_documents` entry; `spec_id`, `spec_name` and
`content` are indexed directly in the source, so a missing key raises. -/
structure StdDoc where
  spec_id : Option String
  spec_name : Option String
  content : Option String
deriving DecidableEq

/-- One inspection-point dict inside an `itp_inspection_points` block. -/
structure InspPoint where
  point_description : Option String
  acceptance_criteria : Option String
  test_method : Option String
  frequency : Option String
  hold_witness : Option String
  responsibility : Option String
  standard_reference : Option String
deriving DecidableEq

/-- A block of the `inspection_points` state list (and of the LLM output
`itp_inspection_points`): a dict with `itp_name` and `inspection_points`. -/
structure PointsBlock where
  itp_name : Option String
  inspection_points : Option (List InspPoint)
deriving DecidableEq

/-- Structured LLM output `InspectionPointsOutput`. -/
structure InspectionPointsOutput where
  reasoning : String
  itp_inspection_points : List PointsBlock
deriving DecidableEq

/-- Structured LLM output item `ITPItem`. -/
structure ITPItem where
  thinking : Option String
  id : String
  parentId : Option String
  type : String
  item_no : String
  order_index : Int
  section_name : Option String
  inspection_test_point : Option String
  acceptance_criteria : Option String
  specification_clause : Option String
  inspection_test_method : Option String
  frequency : Option String
  responsibility : Option String
  hold_witness_point : Option String
deriving DecidableEq

/-- Structured LLM output `ITPItemsOutput`. -/
structure ITPItemsOutput where
  itp_items : List ITPItem
deriving DecidableEq

/-- A flattened inspection-point row built by `generate_individual_itp_node`. -/
structure FlatPoint where
  itp_name : Option String
  point_description : Option String
  acceptance_criteria : Option String
  test_method : Option String
  frequency : Option String
  hold_witness : Option String
  responsibility : Option String
  standard_reference : Option String
deriving DecidableEq

/-- An `individual_itp_items` entry assembled by `generate_individual_itp_node`
(the `asset_id` key is added only after successful persistence). -/
structure GenEntry where
  itp_name : String
  itp_type : String
  itp_items : List ITPItem
  inspection_points_count : Nat
  standards_applied : Nat
  asset_id : Option String
deriving DecidableEq

/-- The `ITPGenerationState` TypedDict.  `project_id` is required by the
input schema; every other channel may be absent (`none`). -/
structure ITPGenerationState where
  project_id : String
  pqp_content : Option String
  txt_project_documents : List ProjDoc
  project_jurisdiction : Option String
  required_itps : Option (List RequiredItp)
  itp_standards_pairs : Option (List StandardsPair)
  applicable_standard_documents : Option (List StdDoc)
  inspection_points : Option (List PointsBlock)
  current_itp_index : Option Nat
  current_generation_index : Option Nat
  individual_itp_items : Option (List GenEntry)
  final_itp_items : Option (List ITPItem)
  error : Option String
deriving DecidableEq

/-- The orchestrator-side `project_details` dict as read by `fetch_docs_node`
(only `jurisdiction_code` is accessed). -/
structure ProjectDetails where
  jurisdiction_code : Option String
deriving DecidableEq

/-- The `InputState` TypedDict of the ITP generation graph. -/
structure InputState where
  project_id : String
  pqp_content : Option String
  txt_project_documents : List ProjDoc
  project_jurisdiction : Option String
  project_details : Option ProjectDetails
deriving DecidableEq

/-- The `OutputState` TypedDict: exactly the channels the compiled graph
exposes to a parent graph. -/
structure OutputState where
  required_itps : Option (List RequiredItp)
  itp_standards_pairs : Option (List StandardsPair)
  reasoning : Option String
  final_itp_items : Option (List ITPItem)
  individual_itp_items : Option (List GenEntry)
  inspection_points : Option (List PointsBlock)
  error : Option String
deriving DecidableEq

/-- LangGraph's projection of a final `ITPGenerationState` onto the declared
`OutputState` channels.  No node ever writes a `reasoning` channel (the
state schema has no such field), so that key is absent in the result. -/
def outputProjection (s : ITPGenerationState) : OutputState :=
  { required_itps := s.required_itps
    itp_standards_pairs := s.itp_standards_pairs
    reasoning := none
    final_itp_items := s.final_itp_items
    individual_itp_items := s.individual_itp_items
    inspection_points := s.inspection_points
    error := s.error }

/-- Python `d[key]` on a value modelled as `Option`: a missing key raises
`KeyError`. -/
def pyIndexS (v : Option String) (key : String) : Except String String :=
  match v with
  | some s => .ok s
  | none => .error ("KeyError: " ++ key)

/-- One line of the `docs_text` f-string
`f"Document: {d['file_name']} (ID: {d['id']})\n{d['content']}"`. -/
def docLineE (d : ProjDoc) : Except String String := do
  let fn ← pyIndexS d.file_name "file_name"
  let i ← pyIndexS d.id "id"
  let c ← pyIndexS d.content "content"
  return ("Document: " ++ fn ++ " (ID: " ++ i ++ ")\n" ++ c)

/-- `"\n\n".join(...)` over the document lines. -/
def docsTextE (ds : List ProjDoc) : Except String String := do
  let lines ← ds.mapM docLineE
  return (String.intercalate "\n\n" lines)

/-- `fetch_docs_node`: validate documents and derive the jurisdiction from
orchestrator state when not provided directly.  The node sets only the
input-carried channels; all later channels stay absent. -/
def fetch_docs_node (s : InputState) : ITPGenerationState :=
  if s.txt_project_documents.isEmpty then
    { project_id := s.project_id
      pqp_content := s.pqp_content
      txt_project_documents := s.txt_project_documents
      project_jurisdiction := s.project_jurisdiction
      required_itps := none, itp_standards_pairs := none
      applicable_standard_documents := none, inspection_points := none
      current_itp_index := none, current_generation_index := none
      individual_itp_items := none, final_itp_items := none
      error := some "txt_project_documents missing; provide extracted documents upstream" }
  else
    let pj := if truthyStr s.project_jurisdiction then s.project_jurisdiction
              else (s.project_details.getD { jurisdiction_code := none }).jurisdiction_code
    { project_id := s.project_id
      pqp_content := s.pqp_content
      txt_project_documents := s.txt_project_documents
      project_jurisdiction := pj
      required_itps := none, itp_standards_pairs := none
      applicable_standard_documents := none, inspection_points := none
      current_itp_index := none, current_generation_index := none
      individual_itp_items := none, final_itp_items := none
      error := none }

/-- The pydantic `RequiredItp` model produced by the extraction LLM
(`itp_name` and `itp_number` are required fields). -/
structure RequiredItpModel where
  itp_name : String
  scope : Option String
  triggering_documents : Option String
  priority : Option String
  estimated_items : Option Int
  itp_number : String
  revision_code : Option String
deriving DecidableEq

/-- Structured LLM output `ITPListOutput`. -/
structure ITPListOutput where
  required_itps : List RequiredItpModel
  reasoning : String
deriving DecidableEq

/-- `ri.model_dump()`: every declared key is present in the resulting dict. -/
def dumpRequiredItp (r : RequiredItpModel) : RequiredItp :=
  { itp_name := some r.itp_name
    scope := r.scope
    triggering_documents := r.triggering_documents
    priority := r.priority
    estimated_items := r.estimated_items
    itp_number := some r.itp_number
    revision_code := r.revision_code
    itp_type := none }

/-- Body of `extract_required_itps_node` (the code inside its outer `try`).
`llmResp` is the reply of the structured-output LLM call; the call sits in
its own inner `try`, so an LLM failure is handled here and does not reach
the outer handler.  A raised failure (a missing document key while building
`docs_text`) is an `Except.error`. -/
def extract_required_itps_body (llmResp : Except String ITPListOutput)
    (s : ITPGenerationState) : Except String ITPGenerationState := do
  let _docs_text ← docsTextE s.txt_project_documents
  match llmResp with
  | .error e =>
    return { s with error := some ("Failed to get structured output from LLM: " ++ e) }
  | .ok response =>
    return { s with required_itps := some (response.required_itps.map dumpRequiredItp)
                    error := none }

/-- `extract_required_itps_node`: the body wrapped in the outer
`try/except` that converts a raised failure into the `error` field. -/
def extract_required_itps_node (llmResp : Except String ITPListOutput)
    (s : ITPGenerationState) : ITPGenerationState :=
  match extract_required_itps_body llmResp s with
  | .ok ret => ret
  | .error e => { s with error := some ("Failed to extract required ITPs: " ++ e) }

/-- A row of the jurisdiction-filtered reference standards returned by
`fetch_reference_documents_by_jurisdiction` (all keys read via `.get`). -/
structure RefStd where
  id : Option String
  spec_id : Option String
  spec_name : Option String
  jurisdiction : Option String
  synopsis : Option String
deriving DecidableEq

/-- Structured LLM output `StandardsMatchingOutput`. -/
structure StandardsMatchingOutput where
  itp_standards_pairs : List StandardsPair
  reasoning : String
deriving DecidableEq

/-- `uuid_to_spec_id.get(u)` where the dict is built by comprehension (a
later duplicate key overwrites an earlier one, hence the reversed search). -/
def lookupSpecId (m : List (Option String × Option String)) (u : String) : Option String :=
  match m.reverse.find? (fun e => e.1 = some u) with
  | some e => e.2
  | none => none

/-- The truthiness filter `[m.get(u) for u in all_uuids if m.get(u)]`
applied to one uuid. -/
def mappedSpecId (m : List (Option String × Option String)) (u : String) : Option String :=
  match lookupSpecId m u with
  | some sid => if sid = "" then none else some sid
  | none => none

/-- Body of `match_standards_to_itps_node`.  `fetchRef` is the reply of the
jurisdiction-filtered reference lookup, `llmResp` the structured LLM reply
(not guarded by an inner `try`: a raising call escapes to the outer
handler), `fetchContent` the standard-document content fetch. -/
def match_standards_body (fetchRef : Except String (List RefStd))
    (llmResp : Except String StandardsMatchingOutput)
    (fetchContent : List String → Except String (List StdDoc))
    (s : ITPGenerationState) : Except String ITPGenerationState := do
  if !truthyList s.required_itps then
    return { s with error := some "No required ITPs available" }
  if !truthyStr s.project_jurisdiction then
    return { s with error := some "Missing project_jurisdiction in state; ensure project details extraction populated it" }
  let filtered ← fetchRef
  let standards_list : List RefStd := filtered.map (fun std =>
    { id := std.id, spec_id := std.spec_id, spec_name := std.spec_name
      jurisdiction := std.jurisdiction
      synopsis := some (std.synopsis.getD "No synopsis available") })
  let response ← llmResp
  let itp_standards_pairs := response.itp_standards_pairs
  let all_uuids := itp_standards_pairs.flatMap (fun p => p.applicable_standards.getD [])
  let uuid_to_spec_id := standards_list.map (fun std => (std.id, std.spec_id))
  let spec_ids := all_uuids.filterMap (mappedSpecId uuid_to_spec_id)
  let standard_documents ← if spec_ids.isEmpty then pure [] else fetchContent spec_ids
  let pairs' := itp_standards_pairs.map (fun p =>
    let mapped := (p.applicable_standards.getD []).filterMap (mappedSpecId uuid_to_spec_id)
    { p with applicable_spec_ids := some mapped })
  return { s with itp_standards_pairs := some pairs'
                  applicable_standard_documents := some standard_documents
                  error := none }

/-- `match_standards_to_itps_node` with its outer `try/except`. -/
def match_standards_to_itps_node (fetchRef : Except String (List RefStd))
    (llmResp : Except String StandardsMatchingOutput)
    (fetchContent : List String → Except String (List StdDoc))
    (s : ITPGenerationState) : ITPGenerationState :=
  match match_standards_body fetchRef llmResp fetchContent s with
  | .ok ret => ret
  | .error e => { s with error := some ("Failed to match standards: " ++ e) }

/-- The filter `[doc for doc in standard_documents if doc["spec_id"] in
current_itp_standards]`; the direct index raises on a missing key. -/
def filterRelevantE (specIds : List String) : List StdDoc → Except String (List StdDoc)
  | [] => .ok []
  | d :: ds => do
    let sid ← pyIndexS d.spec_id "spec_id"
    let rest ← filterRelevantE specIds ds
    return (if specIds.contains sid then d :: rest else rest)

/-- One `standards_text` chunk
`f"Standard: {doc['spec_name']} ({doc['spec_id']})\n{doc['content']}\n\n"`. -/
def stdLineE (d : StdDoc) : Except String String := do
  let n ← pyIndexS d.spec_name "spec_name"
  let sid ← pyIndexS d.spec_id "spec_id"
  let c ← pyIndexS d.content "content"
  return ("Standard: " ++ n ++ " (" ++ sid ++ ")\n" ++ c ++ "\n\n")

/-- The accumulated `standards_text`. -/
def standardsTextE (ds : List StdDoc) : Except String String := do
  let lines ← ds.mapM stdLineE
  return (String.join lines)

/-- Body of `extract_inspection_points_node`.  The returned `Bool` records
whether the in-place `existing_points.extend(normalized)` ran (it mutates
the caller's list object when the input state carried one).  `llmResp` is
the reply of the structured LLM call of this pass; the call sits in an
inner `try`, so its failure is handled here. -/
def extract_inspection_points_body (llmResp : Except String InspectionPointsOutput)
    (s : ITPGenerationState) : Except String (ITPGenerationState × Bool) := do
  if !truthyList s.required_itps then
    return ({ s with error := some "Missing required ITPs for inspection point extraction" }, false)
  if !truthyList s.itp_standards_pairs then
    return ({ s with error := some "Missing ITP-standards pairs for inspection point extraction" }, false)
  if !truthyList s.applicable_standard_documents then
    return ({ s with error := some "No standard documents available for inspection point extraction" }, false)
  let current_index := s.current_itp_index.getD 0
  let required_itps := s.required_itps.getD []
  let itp_standards_pairs := s.itp_standards_pairs.getD []
  let standard_documents := s.applicable_standard_documents.getD []
  if current_index > required_itps.length then
    return ({ s with error := some ("ITP index " ++ toString current_index ++
                " exceeds required ITPs count " ++ toString required_itps.length) }, false)
  if hge : current_index ≥ required_itps.length then
    return (s, false)
  else
    let current_itp := required_itps.get ⟨current_index, Nat.lt_of_not_le hge⟩
    let pairFound := itp_standards_pairs.find? (fun p => p.itp_name = current_itp.itp_name)
    let current_itp_standards : List String :=
      match pairFound with
      | some p => pyOrList p.applicable_spec_ids (p.applicable_standards.getD [])
      | none => []
    if current_itp_standards.isEmpty then
      return ({ s with current_itp_index := some (current_index + 1), error := none }, false)
    let relevant_documents ← filterRelevantE current_itp_standards standard_documents
    if relevant_documents.isEmpty then
      return ({ s with current_itp_index := some (current_index + 1), error := none }, false)
    let _standards_text ← standardsTextE relevant_documents
    let _docs_text ← docsTextE s.txt_project_documents
    match llmResp with
    | .error e =>
      return ({ s with error := some ("Failed to get structured output from LLM: " ++ e) }, false)
    | .ok response =>
      let existing_points := s.inspection_points.getD []
      let normalized : List PointsBlock :=
        if response.itp_inspection_points.isEmpty then []
        else response.itp_inspection_points.filterMap (fun block =>
          let block_itp_name := pyOrStr block.itp_name (current_itp.itp_name.getD "Unknown")
          let points_list := pyOrList block.inspection_points []
          if points_list.isEmpty then none
          else some { itp_name := some block_itp_name, inspection_points := some points_list })
      return ({ s with inspection_points := some (existing_points ++ normalized)
                       current_itp_index := some (current_index + 1)
                       error := none }, true)

/-- `extract_inspection_points_node` as a run: first component the caller's
input state after the call (reflecting the in-place `extend` when the input
carried an `inspection_points` list), second component the returned state
(the body wrapped in the outer `try/except`). -/
def extract_inspection_points_run (llmResp : Except String InspectionPointsOutput)
    (s : ITPGenerationState) : ITPGenerationState × ITPGenerationState :=
  match extract_inspection_points_body llmResp s with
  | .ok (ret, extended) =>
    (if extended && s.inspection_points.isSome
       then { s with inspection_points := ret.inspection_points } else s, ret)
  | .error e =>
    (s, { s with error := some ("Failed to extract inspection points: " ++ e) })

/-- The state returned by `extract_inspection_points_node`. -/
def extract_inspection_points_node (llmResp : Except String InspectionPointsOutput)
    (s : ITPGenerationState) : ITPGenerationState :=
  (extract_inspection_points_run llmResp s).2

/-- One entry of the `results` list of the persistence reply. -/
structure PersistResultItem where
  asset_id : Option String
deriving DecidableEq

/-- The dict returned by `upsertAssetsAndEdges`. -/
structure PersistResult where
  success : Bool
  error : Option String
  results : Option (List PersistResultItem)
deriving DecidableEq

/-- The `IdempotentAssetWriteSpec` built for one generated ITP (metadata and
content dictionaries are inlined field by field). -/
structure IdemAssetSpec where
  asset_type : String
  asset_subtype : String
  name : String
  description : String
  project_id : String
  document_number : Option String
  revision_code : Option String
  meta_source : String
  meta_inspection_points_count : Nat
  meta_itp_items_count : Nat
  meta_itp_slug : String
  content_itp_name : String
  content_itp_type : String
  content_applicable_standard_uuids : List String
  content_applicable_spec_ids : List String
  content_inspection_points : List FlatPoint
  content_itp_items : List ITPItem
  idempotency_key : String
deriving DecidableEq

/-- The tail of `generate_individual_itp_node` once the LLM reply has been
obtained: assemble the entry, build the `IdempotentAssetWriteSpec`, persist
it (the `persistResp` reply, inside its own `try`), and on success append
the entry and advance the cursor.  Pure except for the modelled persistence
call, hence split out of the fallible body. -/
def generate_persist_phase (pers : Except String PersistResult)
    (s : ITPGenerationState) (current_index : Nat) (current_itp : RequiredItp)
    (required_itps : List RequiredItp) (filtered_points : List FlatPoint)
    (response : ITPItemsOutput) :
    ITPGenerationState × Bool × List IdemAssetSpec :=
  let existing_items := s.individual_itp_items.getD []
  let itp_pair := (s.itp_standards_pairs.getD []).find?
    (fun p => p.itp_name = current_itp.itp_name)
  let applicable_standard_uuids :=
    match itp_pair with
    | some p => p.applicable_standards.getD []
    | none => []
  let applicable_spec_ids :=
    match itp_pair with
    | some p => p.applicable_spec_ids.getD []
    | none => []
  let standards_applied :=
    if applicable_standard_uuids.length ≠ 0 then applicable_standard_uuids.length
    else applicable_spec_ids.length
  let itp_name := current_itp.itp_name.getD "Unknown ITP"
  let entry : GenEntry :=
    { itp_name := itp_name
      itp_type := current_itp.itp_type.getD "Unknown"
      itp_items := response.itp_items
      inspection_points_count := filtered_points.length
      standards_applied := standards_applied
      asset_id := none }
  let matched_req := required_itps.find? (fun req => req.itp_name = some itp_name)
  let document_number := matched_req.bind (fun r => r.itp_number)
  let revision_code := matched_req.bind (fun r => r.revision_code)
  let idempotency_key :=
    if truthyStr document_number then
      "itp:" ++ pyStr document_number ++ ":" ++ pyStr revision_code
    else
      "itp:" ++ _slugify itp_name
  let spec : IdemAssetSpec :=
    { asset_type := "itp_document"
      asset_subtype := ""
      name := itp_name
      description := "ITP asset for " ++ itp_name
      project_id := s.project_id
      document_number := document_number
      revision_code := revision_code
      meta_source := "itp_generation_rev2"
      meta_inspection_points_count := filtered_points.length
      meta_itp_items_count := response.itp_items.length
      meta_itp_slug := _slugify itp_name
      content_itp_name := itp_name
      content_itp_type := current_itp.itp_type.getD "Unknown"
      content_applicable_standard_uuids := applicable_standard_uuids
      content_applicable_spec_ids := applicable_spec_ids
      content_inspection_points := filtered_points
      content_itp_items := response.itp_items
      idempotency_key := idempotency_key }
  match pers with
  | .error e =>
    ({ s with error := some ("Failed to upsert ITP asset for \x27" ++
        current_itp.itp_name.getD "Unknown" ++ "\x27: " ++ e) }, false, [spec])
  | .ok persist_result =>
    if !persist_result.success then
      ({ s with error := some ("Failed to persist ITP asset for \x27" ++ itp_name ++
          "\x27: " ++ pyStr persist_result.error) }, false, [spec])
    else
      match persist_result.results.getD [] with
      | [] =>
        ({ s with error := some ("Failed to persist ITP asset for \x27" ++ itp_name ++
            "\x27: empty result") }, false, [spec])
      | first :: _ =>
        if !truthyStr first.asset_id then
          ({ s with error := some ("Failed to persist ITP asset for \x27" ++ itp_name ++
              "\x27: empty result") }, false, [spec])
        else
          let entry2 := { entry with asset_id := first.asset_id }
          ({ s with individual_itp_items := some (existing_items ++ [entry2])
                    current_generation_index := some (current_index + 1)
                    error := none }, true, [spec])

/-- Body of `generate_individual_itp_node`.  Returns the new state, whether
the in-place `existing_items.append(...)` ran, and the write specs passed
to `upsertAssetsAndEdges` (the persistence call and the LLM call are the
`persistResp` and `llmResp` replies; both sit in inner `try` blocks). -/
def generate_individual_itp_body (llmResp : Except String ITPItemsOutput)
    (persistResp : Except String PersistResult)
    (s : ITPGenerationState) :
    Except String (ITPGenerationState × Bool × List IdemAssetSpec) := do
  if !truthyList s.inspection_points then
    return ({ s with error := some "No inspection points available for ITP generation" }, false, [])
  if !truthyList s.required_itps then
    return ({ s with error := some "No required ITPs available for ITP generation" }, false, [])
  let current_index := s.current_generation_index.getD 0
  let required_itps := s.required_itps.getD []
  if current_index > required_itps.length then
    return ({ s with error := some ("Generation index " ++ toString current_index ++
                " exceeds required ITPs count " ++ toString required_itps.length) }, false, [])
  if hge : current_index ≥ required_itps.length then
    return (s, false, [])
  else
    let current_itp := required_itps.get ⟨current_index, Nat.lt_of_not_le hge⟩
    let all_inspection_points := s.inspection_points.getD []
    let filtered_points : List FlatPoint :=
      all_inspection_points.flatMap (fun block =>
        if block.itp_name = current_itp.itp_name then
          (block.inspection_points.getD []).map (fun p =>
            { itp_name := block.itp_name
              point_description := p.point_description
              acceptance_criteria := p.acceptance_criteria
              test_method := p.test_method
              frequency := p.frequency
              hold_witness := p.hold_witness
              responsibility := p.responsibility
              standard_reference := p.standard_reference })
        else [])
    if filtered_points.isEmpty then
      return ({ s with current_generation_index := some (current_index + 1), error := none }, false, [])
    let _docs_text ← docsTextE s.txt_project_documents
    match llmResp with
    | .error e =>
      return ({ s with error := some ("Failed to get structured output from LLM: " ++ e) }, false, [])
    | .ok response =>
      return generate_persist_phase persistResp s current_index current_itp
        required_itps filtered_points response

/-- Result of one execution of `generate_individual_itp_node`: the caller's
input state after the call, the returned state, and the persisted specs. -/
structure GenRun where
  inputAfter : ITPGenerationState
  out : ITPGenerationState
  persisted : List IdemAssetSpec
deriving DecidableEq

/-- `generate_individual_itp_node` as a run (outer `try/except` applied). -/
def generate_individual_itp_run (llmResp : Except String ITPItemsOutput)
    (persistResp : Except String PersistResult)
    (s : ITPGenerationState) : GenRun :=
  match generate_individual_itp_body llmResp persistResp s with
  | .ok (ret, appended, specs) =>
    { inputAfter :=
        if appended && s.individual_itp_items.isSome
          then { s with individual_itp_items := ret.individual_itp_items } else s
      out := ret
      persisted := specs }
  | .error e =>
    { inputAfter := s
      out := { s with error := some ("Failed to generate individual ITP: " ++ e) }
      persisted := [] }

/-- The state returned by `generate_individual_itp_node`. -/
def generate_individual_itp_node (llmResp : Except String ITPItemsOutput)
    (persistResp : Except String PersistResult)
    (s : ITPGenerationState) : ITPGenerationState :=
  (generate_individual_itp_run llmResp persistResp s).out

/-- `generate_final_itp_node`: consolidate the individual ITP items. -/
def generate_final_itp_node (s : ITPGenerationState) : ITPGenerationState :=
  let individual_itps := s.individual_itp_items.getD []
  if individual_itps.isEmpty then
    { s with error := some "No individual ITPs available for final consolidation" }
  else
    let consolidated_items := individual_itps.flatMap (fun e =>
      if e.itp_items.isEmpty then [] else e.itp_items)
    { s with final_itp_items := some consolidated_items, error := none }

/-- `error_node`: returns the state unchanged. -/
def error_node (s : ITPGenerationState) : ITPGenerationState := s

/-- `should_continue_processing`: the routing decision function. -/
def should_continue_processing (state : ITPGenerationState) : String :=
  if truthyStr state.error then "error"
  else
    let required_itps := state.required_itps.getD []
    if required_itps.isEmpty then "error"
    else
      let current_itp_index := state.current_itp_index.getD 0
      let current_generation_index := state.current_generation_index.getD 0
      if current_generation_index ≥ required_itps.length then "generate_itp"
      else if current_itp_index ≥ required_itps.length then "generate_individual_itp"
      else if current_itp_index < required_itps.length then "extract_inspection_points"
      else "error"

/-- Where a conditional edge may lead: a named node or the terminal END. -/
inductive RouteTarget where
  | toNode (name : String)
  | toEND
deriving DecidableEq

/-- Label table of the conditional edges out of `match_standards`. -/
def match_standards_edges (label : String) : Option RouteTarget :=
  if label = "extract_inspection_points" then some (.toNode "extract_inspection_points")
  else if label = "generate_individual_itp" then some (.toNode "generate_individual_itp")
  else if label = "generate_itp" then some (.toNode "generate_itp")
  else if label = "error" then some .toEND
  else none

/-- Label table of the conditional edges out of `extract_inspection_points`. -/
def extract_inspection_points_edges (label : String) : Option RouteTarget :=
  if label = "extract_inspection_points" then some (.toNode "extract_inspection_points")
  else if label = "generate_individual_itp" then some (.toNode "generate_individual_itp")
  else if label = "generate_itp" then some (.toNode "generate_itp")
  else if label = "error" then some .toEND
  else none

/-- Label table of the conditional edges out of `generate_individual_itp`. -/
def generate_individual_itp_edges (label : String) : Option RouteTarget :=
  if label = "generate_individual_itp" then some (.toNode "generate_individual_itp")
  else if label = "generate_itp" then some (.toNode "generate_itp")
  else if label = "error" then some .toEND
  else none

/-- The inspection-point extraction loop as the engine executes it: evaluate
`should_continue_processing`; while it selects `extract_inspection_points`
run the node (the LLM reply of the pass with cursor `n` being `o n`) and
recurse.  Returns the number of node executions and the state at which the
router first selected a different label.  `fuel` bounds the recursion (the
graph itself relies on a recursion limit). -/
def loopExtract (o : Nat → Except String InspectionPointsOutput) :
    Nat → ITPGenerationState → Nat × ITPGenerationState
  | 0, s => (0, s)
  | fuel + 1, s =>
    if should_continue_processing s = "extract_inspection_points" then
      let s' := extract_inspection_points_node (o (s.current_itp_index.getD 0)) s
      let r := loopExtract o fuel s'
      (r.1 + 1, r.2)
    else (0, s)

end ITPGen

/-! Document extraction pipeline (document_extraction.py). -/

namespace DocExtract

/-- A column of a fetched database record: the outer `Option` is key
presence, the inner one SQL NULL. -/
abbrev DbVal := Option (Option String)

/-- A record of the `assets` query made by `fetch_document_details`
(an external collaborator reply, so any key may be missing). -/
structure DocDetail where
  id : DbVal
  file_name : DbVal
  blob_url : DbVal
  storage_path : DbVal
  project_id : DbVal
deriving DecidableEq

/-- Python `record[key]` on a database value: missing key raises `KeyError`,
a NULL value is returned as `None`. -/
def pyIndexDb (v : DbVal) (key : String) : Except String (Option String) :=
  match v with
  | some x => .ok x
  | none => .error ("KeyError: " ++ key)

/-- The pydantic `Document` model (all fields validated as `str`). -/
structure Document where
  id : String
  file_name : String
  content : String
  project_id : String
  blob_url : String
  storage_path : String
deriving DecidableEq

/-- The `metadata` dict carried on an extracted-document dict (all keys are
read with `.get` by `create_asset_write_specs`). -/
structure MetaDict where
  type : Option String
  name : Option String
  extraction_method : Option String
  word_count : Option Nat
  character_count : Option Nat
deriving DecidableEq

/-- The empty metadata dict. -/
def emptyMeta : MetaDict :=
  { type := none, name := none, extraction_method := none
    word_count := none, character_count := none }

/-- A `txt_project_documents` entry: the plain dict built by
`document_extraction_node` (the extraction node fills every key; entries of
an arbitrary `ExtractionState` may miss keys, hence `Option`). -/
structure TxtDoc where
  id : Option String
  file_name : Option String
  content : Option String
  project_id : Option String
  metadata : Option MetaDict
  blob_url : Option String
  storage_path : Option String
deriving DecidableEq

/-- A `failed_documents` entry. -/
structure FailedDoc where
  uuid : String
  file_name : Option String
  error : String
deriving DecidableEq

/-- The pydantic `ExtractionState`. -/
structure ExtractionState where
  project_id : String
  document_ids : List String
  txt_project_documents : List TxtDoc
  failed_documents : List FailedDoc
  error : String
  done : Bool
  failed : Bool
deriving DecidableEq

/-- The dict returned by `extract_document_content_async`. -/
structure AzureResult where
  status : String
  content : Option String
  error : Option String
deriving DecidableEq

/-- The value of one `extract_single_document` task as seen by the caller:
a successful `Document`, or the failure record the task built. -/
inductive SingleOutcome where
  | document (d : Document)
  | failedRec (f : FailedDoc)
deriving DecidableEq

/-- The remainder of `l` after the first occurrence of the separator
`sep`, or `none` when `sep` does not occur (structural counterpart of
Python `l.split(sep, 1)[1]` for a non-empty separator). -/
def afterFirstSep (sep : List Char) : List Char -> Option (List Char)
  | [] => none
  | c :: cs =>
    if sep.isPrefixOf (c :: cs) then some ((c :: cs).drop sep.length)
    else afterFirstSep sep cs

/-- `blob_url.split("/documents/", 1)[1]`: `None` has no `split`, and the
index raises when the separator does not occur. -/
def splitDocumentsPart (blob_url : Option String) : Except String String :=
  match blob_url with
  | none => .error "AttributeError: NoneType object has no attribute split"
  | some u =>
    match afterFirstSep "/documents/".data u.data with
    | none => .error "IndexError: list index out of range"
    | some rest => .ok (String.mk rest)

/-- `extract_single_document`.  `sas` and `azure` are the collaborator
replies (`Except.error` = the call raised).  The four record reads sit
before the `try` block: a `KeyError` there escapes the task and surfaces as
the exception entry `asyncio.gather(..., return_exceptions=True)` stores in
its result list.  Everything inside the `try` is converted to a
`failedRec`. -/
def extract_single_document (sas : String → Except String String)
    (azure : String → Option String → Except String AzureResult)
    (project_id : String) (d : DocDetail) : Except String SingleOutcome := do
  let idv ← pyIndexDb d.id "id"
  let doc_id := pyStr idv
  let file_name ← pyIndexDb d.file_name "file_name"
  let blob_url ← pyIndexDb d.blob_url "blob_url"
  let storage_path ← pyIndexDb d.storage_path "storage_path"
  let tryResult : Except String Document := do
    let blob_path ←
      match storage_path with
      | some sp => if sp ≠ "" then pure sp else splitDocumentsPart blob_url
      | none => splitDocumentsPart blob_url
    let sas_url ← sas blob_path
    let extraction_result ← azure sas_url file_name
    if extraction_result.status ≠ "success" then
      .error ("Extraction failed: " ++ extraction_result.error.getD "Unknown error")
    else
      let content := extraction_result.content.getD ""
      match file_name, blob_url, storage_path with
      | some fn, some bu, some sp =>
        .ok { id := doc_id, file_name := fn, content := content
              project_id := project_id, blob_url := bu, storage_path := sp }
      | _, _, _ => .error "ValidationError: Document fields must be str"
  match tryResult with
  | .ok doc => return SingleOutcome.document doc
  | .error e => return SingleOutcome.failedRec { uuid := doc_id, file_name := file_name, error := e }

/-- `fetch_document_details`: empty input short-circuits; otherwise the
database reply (`db`) is normalised by `str()`-converting the `id` and
`project_id` columns when present. -/
def fetch_document_details (db : List String → List DocDetail)
    (s : ExtractionState) : List DocDetail :=
  if s.document_ids.isEmpty then []
  else (db s.document_ids).map (fun r =>
    { r with id := r.id.map (fun v => some (pyStr v))
             project_id := r.project_id.map (fun v => some (pyStr v)) })

/-- The merge loop over the `asyncio.gather` results: an exception entry is
skipped, a document is appended to `documents`, a failure record to
`failed_docs`, in result order. -/
def mergeResults : List (Except String SingleOutcome) → List Document × List FailedDoc
  | [] => ([], [])
  | r :: rs =>
    let rest := mergeResults rs
    match r with
    | .error _ => rest
    | .ok (.document d) => (d :: rest.1, rest.2)
    | .ok (.failedRec f) => (rest.1, f :: rest.2)

/-- The dict a successful `Document` is converted to for downstream graphs. -/
def docToDict (doc : Document) : TxtDoc :=
  { id := some doc.id, file_name := some doc.file_name
    content := some doc.content, project_id := some doc.project_id
    metadata := some emptyMeta
    blob_url := some doc.blob_url, storage_path := some doc.storage_path }

/-- The partial update returned by `document_extraction_node`. -/
structure DocExtractUpdate where
  document_ids : List String
  txt_project_documents : List TxtDoc
  failed_documents : List FailedDoc
  error : String
  failed : Bool
  done : Bool
deriving DecidableEq

/-- `document_extraction_node`.  `asyncio.gather` stores each task's value
(or raised exception, with `return_exceptions=True`) at the position of the
task in its argument list, so `results` is indexed by input order no matter
in which order the tasks complete; the node embeds that contract as a
`List.map`.  The leading `state.document_ids = [str(...)]` normalisation
rewrites the field with an equal list of strings (the field is typed
`List[str]`), so it is dropped here. -/
def document_extraction_node (db : List String → List DocDetail)
    (sas : String → Except String String)
    (azure : String → Option String → Except String AzureResult)
    (s : ExtractionState) : DocExtractUpdate :=
  let doc_details := fetch_document_details db s
  let results := doc_details.map (extract_single_document sas azure s.project_id)
  let merged := mergeResults results
  let documents := merged.1
  let failed_docs := merged.2
  let failed_flag := documents.length = 0
  let txt_project_documents := documents.map docToDict
  let processed_document_ids := documents.map (fun d => d.id)
  { document_ids := processed_document_ids
    txt_project_documents := txt_project_documents
    failed_documents := failed_docs
    error := if failed_flag then "Document Extraction produced no content" else ""
    failed := failed_flag
    done := true }

/-- The asset write spec built for one extracted document (the nested
`asset` dict is inlined field by field). -/
structure DocSpec where
  asset_type : String
  asset_name : Option String
  project_id : String
  approval_state : String
  classification : String
  content_extracted_content : Option String
  meta_source_document_id : Option String
  meta_file_name : Option String
  meta_blob_url : Option String
  meta_storage_path : Option String
  meta_extraction_method : Option String
  meta_word_count : Option Nat
  meta_character_count : Option Nat
  status : String
  idempotency_key : String
deriving DecidableEq

/-- `create_asset_write_specs`. -/
def create_asset_write_specs (s : ExtractionState) : List DocSpec :=
  s.txt_project_documents.map (fun d =>
    let meta := d.metadata.getD emptyMeta
    { asset_type := meta.type.getD "document"
      asset_name := (match meta.name with | some v => some v | none => d.file_name)
      project_id := s.project_id
      approval_state := "not_required"
      classification := "internal"
      content_extracted_content := d.content
      meta_source_document_id := d.id
      meta_file_name := d.file_name
      meta_blob_url := d.blob_url
      meta_storage_path := d.storage_path
      meta_extraction_method := meta.extraction_method
      meta_word_count := meta.word_count
      meta_character_count := meta.character_count
      status := "draft"
      idempotency_key := "doc_extract:" ++ s.project_id ++ ":" ++ pyStr d.id })

end DocExtract

/-! Properties of the slug helpers. -/

/-- No two adjacent dashes (Bool form, so concrete instances compute). -/
def noAdjDash : List Char → Bool
  | [] => true
  | [_] => true
  | a :: b :: rest => !(a = '-' && b = '-') && noAdjDash (b :: rest)

/-- A well-formed slug: non-empty, only lowercase alphanumerics and dashes,
no adjacent dashes, and no leading or trailing dash. -/
def WellFormedSlug (s : String) : Prop :=
  s.data ≠ [] ∧ (∀ c ∈ s.data, isAlnumLower c = true ∨ c = '-') ∧
  noAdjDash s.data = true ∧ s.data.head? ≠ some '-' ∧ s.data.getLast? ≠ some '-'

namespace ITPGen

/-- A minimal ITP generation state, customised by the concrete instances
used in the closed theorems below. -/
def baseState : ITPGenerationState :=
  { project_id := "p", pqp_content := none, txt_project_documents := []
    project_jurisdiction := none, required_itps := none
    itp_standards_pairs := none, applicable_standard_documents := none
    inspection_points := none, current_itp_index := none
    current_generation_index := none, individual_itp_items := none
    final_itp_items := none, error := none }

/-- A concrete `required_itps` entry used by the closed theorems below. -/
def wItp : RequiredItp :=
  { itp_name := some "A", scope := none, triggering_documents := none
    priority := none, estimated_items := none, itp_number := some "ITP-001"
    revision_code := some "0", itp_type := none }

/-- A concrete standards pair matching `wItp`. -/
def wPair : StandardsPair :=
  { itp_name := some "A", applicable_standards := some ["s1"]
    reasoning := none, applicable_spec_ids := none }

/-- A concrete standard document with spec id `s1`. -/
def wStd : StdDoc :=
  { spec_id := some "s1", spec_name := some "S", content := some "std text" }

/-- A concrete project document with every key present. -/
def wDoc : ProjDoc :=
  { id := some "d1", file_name := some "f.pdf", content := some "doc text"
    project_id := some "p", blob_url := some "", storage_path := some "" }

/-- A concrete inspection point. -/
def wPoint : InspPoint :=
  { point_description := some "check", acceptance_criteria := some "ok"
    test_method := some "visual", frequency := some "each"
    hold_witness := some "HOLD", responsibility := some "QA"
    standard_reference := some "s1" }

/-- A state about to execute `extract_inspection_points_node` with one ITP,
its standards pair and document content, and an (empty) pre-existing
`inspection_points` list. -/
def wLoopState : ITPGenerationState :=
  { baseState with txt_project_documents := [wDoc]
                   required_itps := some [wItp]
                   itp_standards_pairs := some [wPair]
                   applicable_standard_documents := some [wStd]
                   inspection_points := some [] }

/-- The LLM reply delivering one inspection-point block for `wItp`. -/
def wResp : InspectionPointsOutput :=
  { reasoning := "r"
    itp_inspection_points := [{ itp_name := some "A", inspection_points := some [wPoint] }] }

end ITPGen

namespace DocExtract

/-- A concrete database record whose `blob_url` carries no
`"/documents/"` segment and whose `storage_path` is empty. -/
def wDetail : DocDetail :=
  { id := some (some "d1"), file_name := some (some "f")
    blob_url := some (some "x"), storage_path := some (some "")
    project_id := some (some "p") }

/-- Database reply used by the concrete run. -/
def wDb : List String → List DocDetail := fun _ => [wDetail]

/-- SAS-token reply used by the concrete run. -/
def wSas : String → Except String String := fun _ => .ok "sasurl"

/-- Azure extraction reply used by the concrete run. -/
def wAzure : String → Option String → Except String AzureResult :=
  fun _ _ => .ok { status := "success", content := some "ct", error := none }

/-- Input state of the concrete run. -/
def wState : ExtractionState :=
  { project_id := "p", document_ids := ["d1"], txt_project_documents := []
    failed_documents := [], error := "", done := false, failed := false }

/-- The failure record the task for `wDetail` produces. -/
def wFailed : FailedDoc :=
  { uuid := "d1", file_name := some "f"
    error := "IndexError: list index out of range" }

end DocExtract

namespace ITPGen

/-- A state carrying a set `error` field. -/
def wErrState : ITPGenerationState := { baseState with error := some "boom" }

/-- A state whose only document dict is missing every key, so that building
`docs_text` raises a `KeyError` inside the node bodies. -/
def wBadDocState : ITPGenerationState :=
  { baseState with txt_project_documents :=
      [{ id := none, file_name := none, content := none
         project_id := none, blob_url := none, storage_path := none }] }

/-- A trivial `ITPListOutput` reply. -/
def wListResp : ITPListOutput := { required_itps := [], reasoning := "" }

/-- The idempotency key `generate_individual_itp_node` constructs for the
ITP at `current` given the identification list `reqs` (the embedding of
`f"itp:{document_number}:{revision_code}" if document_number else
f"itp:{_slugify(itp_name)}"`). -/
def itpIdemKey (reqs : List RequiredItp) (current : RequiredItp) : String :=
  let itp_name := current.itp_name.getD "Unknown ITP"
  let matched := reqs.find? (fun r => r.itp_name = some itp_name)
  let document_number := matched.bind (fun r => r.itp_number)
  let revision_code := matched.bind (fun r => r.revision_code)
  if truthyStr document_number then
    "itp:" ++ pyStr document_number ++ ":" ++ pyStr revision_code
  else
    "itp:" ++ _slugify itp_name

/-- A `PointsBlock` matching `wItp` by name. -/
def wBlock : PointsBlock := { itp_name := some "A", inspection_points := some [wPoint] }

/-- A state about to execute `generate_individual_itp_node` for `wItp`. -/
def wGenState : ITPGenerationState :=
  { baseState with required_itps := some [wItp]
                   itp_standards_pairs := some [wPair]
                   inspection_points := some [wBlock] }

/-- The LLM reply for the generation pass (no items). -/
def wRespG : Except String ITPItemsOutput := .ok { itp_items := [] }

/-- A successful persistence reply. -/
def wPers : Except String PersistResult :=
  .ok { success := true, error := none, results := some [{ asset_id := some "aid" }] }

/-- The write spec the concrete generation pass persists. -/
def wSpec : IdemAssetSpec :=
  { asset_type := "itp_document"
    asset_subtype := ""
    name := "A"
    description := "ITP asset for A"
    project_id := "p"
    document_number := some "ITP-001"
    revision_code := some "0"
    meta_source := "itp_generation_rev2"
    meta_inspection_points_count := 1
    meta_itp_items_count := 0
    meta_itp_slug := "a"
    content_itp_name := "A"
    content_itp_type := "Unknown"
    content_applicable_standard_uuids := ["s1"]
    content_applicable_spec_ids := []
    content_inspection_points :=
      [{ itp_name := some "A", point_description := some "check"
         acceptance_criteria := some "ok", test_method := some "visual"
         frequency := some "each", hold_witness := some "HOLD"
         responsibility := some "QA", standard_reference := some "s1" }]
    content_itp_items := []
    idempotency_key := "itp:ITP-001:0" }

end ITPGen

theorem noAdjDash_iff_chain (l : List Char) :
    noAdjDash l = true ↔ List.Chain' (fun a b => ¬(a = '-' ∧ b = '-')) l := by
  induction l using noAdjDash.induct with
  | case1 => simp [noAdjDash]
  | case2 c => simp [noAdjDash]
  | case3 a b rest ih =>
    simp [noAdjDash, List.chain'_cons, ih]
    tauto

theorem head?_dedupDash (l : List Char) : (dedupDash l).head? = l.head? := by
  induction l using dedupDash.induct with
  | case1 => rfl
  | case2 c => rfl
  | case3 a b rest h ih =>
    have h' : a = '-' ∧ b = '-' := by simpa using h
    simp only [dedupDash, if_pos h]
    rw [ih]
    simp [h'.1, h'.2]
  | case4 a b rest h ih =>
    simp only [dedupDash, if_neg h]
    rfl

theorem getLast?_dedupDash (l : List Char) : (dedupDash l).getLast? = l.getLast? := by
  induction l using dedupDash.induct with
  | case1 => rfl
  | case2 c => rfl
  | case3 a b rest h ih =>
    simp only [dedupDash, if_pos h]
    rw [ih, List.getLast?_cons_cons]
  | case4 a b rest h ih =>
    simp only [dedupDash, if_neg h]
    cases hd : dedupDash (b :: rest) with
    | nil => have hh := head?_dedupDash (b :: rest); rw [hd] at hh; simp at hh
    | cons x xs =>
      rw [List.getLast?_cons_cons]
      rw [List.getLast?_cons_cons]
      rw [← hd]
      exact ih

theorem mem_dedupDash {c : Char} {l : List Char} (h : c ∈ dedupDash l) : c ∈ l := by
  induction l using dedupDash.induct with
  | case1 => simp [dedupDash] at h
  | case2 d => simp [dedupDash] at h; simp [h]
  | case3 a b rest hc ih =>
    simp only [dedupDash, if_pos hc] at h
    exact List.mem_cons_of_mem a (ih h)
  | case4 a b rest hc ih =>
    simp only [dedupDash, if_neg hc] at h
    rcases List.mem_cons.mp h with h1 | h2
    · exact h1 ▸ List.mem_cons_self a _
    · exact List.mem_cons_of_mem a (ih h2)

theorem chain_dedupDash (l : List Char) :
    List.Chain' (fun a b => ¬(a = '-' ∧ b = '-')) (dedupDash l) := by
  induction l using dedupDash.induct with
  | case1 => simp [dedupDash]
  | case2 c => simp [dedupDash]
  | case3 a b rest h ih =>
    simpa only [dedupDash, if_pos h] using ih
  | case4 a b rest h ih =>
    have h' : ¬(a = '-' ∧ b = '-') := by simpa using h
    simp only [dedupDash, if_neg h]
    rw [List.chain'_cons']
    refine ⟨?_, ih⟩
    intro y hy
    rw [head?_dedupDash] at hy
    simp at hy
    intro hcon
    exact h' ⟨hcon.1, hy ▸ hcon.2⟩

theorem noAdjDash_dedupDash (l : List Char) : noAdjDash (dedupDash l) = true :=
  (noAdjDash_iff_chain _).mpr (chain_dedupDash l)

theorem dedupDash_eq_self {l : List Char} (h : noAdjDash l = true) : dedupDash l = l := by
  induction l using dedupDash.induct with
  | case1 => rfl
  | case2 c => rfl
  | case3 a b rest hc ih =>
    exfalso
    simp only [noAdjDash, Bool.and_eq_true, Bool.not_eq_true'] at h
    rw [hc] at h
    simp at h
  | case4 a b rest hc ih =>
    simp only [noAdjDash, Bool.and_eq_true] at h
    simp only [dedupDash, if_neg hc]
    rw [ih h.2]

theorem dropWhile_eq_self_of_head {p : Char → Bool} {l : List Char}
    (h : ∀ c, l.head? = some c → p c = false) : l.dropWhile p = l := by
  cases l with
  | nil => rfl
  | cons a t =>
    rw [List.dropWhile_cons]
    simp [h a rfl]

theorem head?_dropWhile_not (p : Char → Bool) (l : List Char) {c : Char}
    (h : (l.dropWhile p).head? = some c) : p c = false := by
  induction l with
  | nil => simp at h
  | cons a t ih =>
    rw [List.dropWhile_cons] at h
    by_cases hp : p a = true
    · rw [if_pos hp] at h
      exact ih h
    · rw [if_neg hp] at h
      simp only [List.head?_cons, Option.some.injEq] at h
      rw [← h]
      simpa using hp

theorem isPrefix_head? {m l : List Char} {c : Char} (hp : m <+: l)
    (h : m.head? = some c) : l.head? = some c := by
  rcases hp with ⟨t, rfl⟩
  cases m with
  | nil => simp at h
  | cons x xs => simpa using h

theorem mem_stripDash {c : Char} {l : List Char} (h : c ∈ stripDash l) : c ∈ l := by
  unfold stripDash at h
  rw [List.mem_reverse] at h
  have h2 := (List.dropWhile_suffix (fun x => x = '-')).subset h
  rw [List.mem_reverse] at h2
  exact (List.dropWhile_suffix (fun x => x = '-')).subset h2

theorem head?_stripDash {l : List Char} {c : Char} (h : (stripDash l).head? = some c) :
    c ≠ '-' := by
  unfold stripDash at h
  have hpre : ((l.dropWhile (· = '-')).reverse.dropWhile (· = '-')).reverse <+:
      l.dropWhile (· = '-') := by
    have hsuf : ((l.dropWhile (· = '-')).reverse.dropWhile (· = '-')) <:+
        (l.dropWhile (· = '-')).reverse := List.dropWhile_suffix _
    have := List.reverse_prefix.mpr hsuf
    simpa using this
  have hh := isPrefix_head? hpre h
  have := head?_dropWhile_not (· = '-') l hh
  simpa using this

theorem getLast?_stripDash {l : List Char} {c : Char}
    (h : (stripDash l).getLast? = some c) : c ≠ '-' := by
  unfold stripDash at h
  rw [List.getLast?_reverse] at h
  have := head?_dropWhile_not (· = '-') (l.dropWhile (· = '-')).reverse h
  simpa using this

theorem chain_stripDash {l : List Char}
    (h : List.Chain' (fun a b => ¬(a = '-' ∧ b = '-')) l) :
    List.Chain' (fun a b => ¬(a = '-' ∧ b = '-')) (stripDash l) := by
  unfold stripDash
  have h1 := h.suffix (List.dropWhile_suffix (fun x => x = '-'))
  have h2 : List.Chain' (flip (fun a b => ¬(a = '-' ∧ b = '-')))
      (l.dropWhile (· = '-')).reverse := by
    rw [List.chain'_reverse]
    have : (flip (flip (fun a b => ¬(a = '-' ∧ b = '-')))) =
        (fun a b => ¬(a = '-' ∧ b = '-')) := rfl
    rw [this]
    exact h1
  have h3 := h2.suffix (List.dropWhile_suffix (fun x => x = '-'))
  rw [List.chain'_reverse]
  exact h3

theorem stripDash_eq_self {l : List Char} (hh : l.head? ≠ some '-')
    (hl : l.getLast? ≠ some '-') : stripDash l = l := by
  unfold stripDash
  have e1 : l.dropWhile (· = '-') = l := by
    apply dropWhile_eq_self_of_head
    intro c hc
    simp only [decide_eq_false_iff_not]
    intro rfl_eq
    exact hh (rfl_eq ▸ hc)
  rw [e1]
  have e2 : l.reverse.dropWhile (· = '-') = l.reverse := by
    apply dropWhile_eq_self_of_head
    intro c hc
    rw [List.head?_reverse] at hc
    simp only [decide_eq_false_iff_not]
    intro rfl_eq
    exact hl (rfl_eq ▸ hc)
  rw [e2, List.reverse_reverse]

theorem dropWhile_eq_self_of_all {p : Char → Bool} {l : List Char}
    (h : ∀ c ∈ l, p c = false) : l.dropWhile p = l := by
  apply dropWhile_eq_self_of_head
  intro c hc
  apply h
  cases l with
  | nil => simp at hc
  | cons a t => simp at hc; simp [hc]

theorem stripWs_eq_self {l : List Char} (h : ∀ c ∈ l, c.isWhitespace = false) :
    stripWs l = l := by
  unfold stripWs
  rw [dropWhile_eq_self_of_all h]
  rw [dropWhile_eq_self_of_all (by intro c hc; exact h c (List.mem_reverse.mp hc))]
  exact List.reverse_reverse l

theorem lowerChar_fix {c : Char} (h : isAlnumLower c = true ∨ c = '-') :
    lowerChar c = c := by
  rcases h with h | rfl
  · simp only [isAlnumLower, Bool.or_eq_true, Bool.and_eq_true, decide_eq_true_eq] at h
    unfold lowerChar
    rw [if_neg (by simp only [Bool.and_eq_true, decide_eq_true_eq, not_and]; omega)]
  · decide

theorem dashify_fix {c : Char} (h : isAlnumLower c = true ∨ c = '-') :
    dashify c = c := by
  rcases h with h | rfl
  · simp [dashify, h]
  · decide

theorem dashify_mem (c : Char) : isAlnumLower (dashify c) = true ∨ dashify c = '-' := by
  unfold dashify
  by_cases h : isAlnumLower c = true
  · rw [if_pos h]; exact Or.inl h
  · rw [if_neg h]; exact Or.inr rfl

theorem alnumDash_not_ws {c : Char} (h : isAlnumLower c = true ∨ c = '-') :
    c.isWhitespace = false := by
  rcases h with h | rfl
  · by_contra hw
    simp only [Bool.not_eq_false] at hw
    unfold Char.isWhitespace at hw
    simp only [Bool.or_eq_true, decide_eq_true_eq] at hw
    rcases hw with ((h1 | h1) | h1) | h1 <;> (subst h1; exact absurd h (by decide))
  · decide

theorem map_fix {f : Char → Char} {l : List Char} (h : ∀ c ∈ l, f c = c) :
    l.map f = l := by
  induction l with
  | nil => rfl
  | cons a t ih =>
    simp only [List.map_cons]
    rw [h a (List.mem_cons_self a t), ih (fun c hc => h c (List.mem_cons_of_mem a hc))]

theorem wellFormedSlug_unknown : WellFormedSlug "unknown" := by
  refine ⟨by decide, ?_, by decide, by decide, by decide⟩
  decide

theorem slugify_wf (t : String) : WellFormedSlug (_slugify t) := by
  unfold _slugify
  by_cases ht : t = ""
  · rw [if_pos ht]; exact wellFormedSlug_unknown
  · rw [if_neg ht]
    set l1 := (stripWs t.data).map lowerChar with hl1
    set l2 := dedupDash (l1.map dashify) with hl2
    set l3 := stripDash l2 with hl3
    set l4 := dedupDash l3 with hl4
    by_cases he : l4.isEmpty
    · rw [if_pos he]; exact wellFormedSlug_unknown
    · rw [if_neg he]
      refine ⟨?_, ?_, ?_, ?_, ?_⟩
      · show l4 ≠ []
        intro hnil
        rw [hnil] at he
        exact he rfl
      · intro c hc
        have h3 : c ∈ l3 := mem_dedupDash hc
        have h2 : c ∈ l2 := mem_stripDash h3
        have h1 : c ∈ l1.map dashify := mem_dedupDash h2
        rcases List.mem_map.mp h1 with ⟨x, _, rfl⟩
        exact dashify_mem x
      · exact noAdjDash_dedupDash l3
      · show l4.head? ≠ some '-'
        intro hcon
        rw [hl4, head?_dedupDash] at hcon
        exact head?_stripDash hcon rfl
      · show l4.getLast? ≠ some '-'
        intro hcon
        rw [hl4, getLast?_dedupDash] at hcon
        exact getLast?_stripDash hcon rfl

theorem slugify_fix {s : String} (h : WellFormedSlug s) : _slugify s = s := by
  obtain ⟨hne, hchars, hnadj, hh, hl⟩ := h
  have hs : s ≠ "" := by
    intro hcon
    apply hne
    rw [hcon]
  unfold _slugify
  rw [if_neg hs]
  have e1 : stripWs s.data = s.data :=
    stripWs_eq_self (fun c hc => alnumDash_not_ws (hchars c hc))
  have e2 : s.data.map lowerChar = s.data :=
    map_fix (fun c hc => lowerChar_fix (hchars c hc))
  have e3 : s.data.map dashify = s.data :=
    map_fix (fun c hc => dashify_fix (hchars c hc))
  have e4 : dedupDash s.data = s.data := dedupDash_eq_self hnadj
  have e5 : stripDash s.data = s.data := stripDash_eq_self hh hl
  simp only [e1, e2, e3, e4, e5]
  have he : s.data.isEmpty = false := by
    cases hd : s.data with
    | nil => exact absurd hd hne
    | cons a t => rfl
  rw [he, if_neg (by decide)]

/-- C10: for every input string `t`, `_slugify t` is a non-empty string of
lowercase alphanumerics separated by single dashes, with no leading or
trailing dash (the fallback `"unknown"` has the same shape), and `_slugify`
is idempotent. -/
theorem slugify_wellformed_and_idem (t : String) :
    WellFormedSlug (_slugify t) ∧ _slugify (_slugify t) = _slugify t :=
  ⟨slugify_wf t, slugify_fix (slugify_wf t)⟩

theorem append_ne_empty_left {a : String} (b : String) (h : a ≠ "") : a ++ b ≠ "" := by
  intro hcon
  apply h
  cases a with
  | mk da =>
    cases b with
    | mk db =>
      have hmk : String.mk (da ++ db) = String.mk [] := hcon
      have hd : da ++ db = [] := by injection hmk
      have := List.append_eq_nil.mp hd
      rw [this.1]

theorem truthyStr_some_of_ne {s : String} (h : s ≠ "") : truthyStr (some s) = true := by
  simp only [truthyStr, decide_eq_true_eq]
  exact h

namespace ITPGen

/-- Branch analysis of `extract_inspection_points_body`'s successful
returns: an error state with the cursor untouched, an unchanged state when
the cursor sits at the end of the list, or a one-step cursor advance. -/
theorem extract_body_cursor_cases {resp : Except String InspectionPointsOutput}
    {s out : ITPGenerationState} {ext : Bool}
    (h : extract_inspection_points_body resp s = .ok (out, ext)) :
    (truthyStr out.error = true ∧ out.current_itp_index = s.current_itp_index) ∨
    (out = s ∧ s.current_itp_index.getD 0 ≤ (s.required_itps.getD []).length) ∨
    (s.current_itp_index.getD 0 < (s.required_itps.getD []).length ∧
     out.current_itp_index = some (s.current_itp_index.getD 0 + 1) ∧
     out.error = none) := by
  unfold extract_inspection_points_body at h
  simp only [Bind.bind, Except.bind, Pure.pure, Except.pure] at h
  split at h
  · simp only [Except.ok.injEq, Prod.mk.injEq] at h
    left
    rw [← h.1]
    exact ⟨truthyStr_some_of_ne (by decide), rfl⟩
  · split at h
    · simp only [Except.ok.injEq, Prod.mk.injEq] at h
      left
      rw [← h.1]
      exact ⟨truthyStr_some_of_ne (by decide), rfl⟩
    · split at h
      · simp only [Except.ok.injEq, Prod.mk.injEq] at h
        left
        rw [← h.1]
        exact ⟨truthyStr_some_of_ne (by decide), rfl⟩
      · split at h
        · simp only [Except.ok.injEq, Prod.mk.injEq] at h
          left
          rw [← h.1]
          refine ⟨truthyStr_some_of_ne ?_, rfl⟩
          exact append_ne_empty_left _ (append_ne_empty_left _ (append_ne_empty_left _ (by decide)))
        · split at h
          · simp only [Except.ok.injEq, Prod.mk.injEq] at h
            right; left
            rw [← h.1]
            refine ⟨rfl, ?_⟩
            omega
          · split at h
            · simp only [Except.ok.injEq, Prod.mk.injEq] at h
              right; right
              rw [← h.1]
              refine ⟨by omega, rfl, rfl⟩
            · split at h
              · cases h
              · split at h
                · simp only [Except.ok.injEq, Prod.mk.injEq] at h
                  right; right
                  rw [← h.1]
                  refine ⟨by omega, rfl, rfl⟩
                · split at h
                  · cases h
                  · split at h
                    · cases h
                    · split at h
                      · simp only [Except.ok.injEq, Prod.mk.injEq] at h
                        left
                        rw [← h.1]
                        refine ⟨truthyStr_some_of_ne ?_, rfl⟩
                        exact append_ne_empty_left _ (by decide)
                      · simp only [Except.ok.injEq, Prod.mk.injEq] at h
                        right; right
                        rw [← h.1]
                        refine ⟨by omega, rfl, rfl⟩

/-- Branch analysis of `generate_persist_phase`: either an error state with
the generation cursor untouched, or the appended-and-advanced state. -/
theorem persist_phase_cursor_cases {pers : Except String PersistResult}
    {s : ITPGenerationState} {ci : Nat} {itp : RequiredItp}
    {reqs : List RequiredItp} {pts : List FlatPoint} {resp : ITPItemsOutput}
    {out : ITPGenerationState} {app : Bool} {specs : List IdemAssetSpec}
    (h : generate_persist_phase pers s ci itp reqs pts resp = (out, app, specs)) :
    (truthyStr out.error = true ∧ out.current_generation_index = s.current_generation_index) ∨
    (out.current_generation_index = some (ci + 1) ∧ out.error = none) := by
  unfold generate_persist_phase at h
  split at h
  · simp only [Prod.mk.injEq] at h
    left
    rw [← h.1]
    exact ⟨truthyStr_some_of_ne (append_ne_empty_left _
      (append_ne_empty_left _ (append_ne_empty_left _ (by decide)))), rfl⟩
  · split at h
    · simp only [Prod.mk.injEq] at h
      left
      rw [← h.1]
      exact ⟨truthyStr_some_of_ne (append_ne_empty_left _
        (append_ne_empty_left _ (append_ne_empty_left _ (by decide)))), rfl⟩
    · split at h
      · simp only [Prod.mk.injEq] at h
        left
        rw [← h.1]
        exact ⟨truthyStr_some_of_ne (append_ne_empty_left _
          (append_ne_empty_left _ (by decide))), rfl⟩
      · split at h
        · simp only [Prod.mk.injEq] at h
          left
          rw [← h.1]
          exact ⟨truthyStr_some_of_ne (append_ne_empty_left _
            (append_ne_empty_left _ (by decide))), rfl⟩
        · simp only [Prod.mk.injEq] at h
          right
          rw [← h.1]
          exact ⟨rfl, rfl⟩

/-- Branch analysis of `generate_individual_itp_body`'s successful returns,
mirroring `extract_body_cursor_cases` for the generation cursor. -/
theorem generate_body_cursor_cases {respG : Except String ITPItemsOutput}
    {pers : Except String PersistResult}
    {s out : ITPGenerationState} {app : Bool} {specs : List IdemAssetSpec}
    (h : generate_individual_itp_body respG pers s = .ok (out, app, specs)) :
    (truthyStr out.error = true ∧ out.current_generation_index = s.current_generation_index) ∨
    (out = s ∧ s.current_generation_index.getD 0 ≤ (s.required_itps.getD []).length) ∨
    (s.current_generation_index.getD 0 < (s.required_itps.getD []).length ∧
     out.current_generation_index = some (s.current_generation_index.getD 0 + 1) ∧
     out.error = none) := by
  unfold generate_individual_itp_body at h
  simp only [Bind.bind, Except.bind, Pure.pure, Except.pure] at h
  split at h
  · simp only [Except.ok.injEq, Prod.mk.injEq] at h
    left
    rw [← h.1]
    exact ⟨truthyStr_some_of_ne (by decide), rfl⟩
  · split at h
    · simp only [Except.ok.injEq, Prod.mk.injEq] at h
      left
      rw [← h.1]
      exact ⟨truthyStr_some_of_ne (by decide), rfl⟩
    · split at h
      · simp only [Except.ok.injEq, Prod.mk.injEq] at h
        left
        rw [← h.1]
        refine ⟨truthyStr_some_of_ne ?_, rfl⟩
        exact append_ne_empty_left _ (append_ne_empty_left _ (append_ne_empty_left _ (by decide)))
      · split at h
        · simp only [Except.ok.injEq, Prod.mk.injEq] at h
          right; left
          rw [← h.1]
          refine ⟨rfl, ?_⟩
          omega
        · split at h
          · simp only [Except.ok.injEq, Prod.mk.injEq] at h
            right; right
            rw [← h.1]
            refine ⟨by omega, rfl, rfl⟩
          · split at h
            · cases h
            · split at h
              · simp only [Except.ok.injEq, Prod.mk.injEq] at h
                left
                rw [← h.1]
                refine ⟨truthyStr_some_of_ne ?_, rfl⟩
                exact append_ne_empty_left _ (by decide)
              · simp only [Except.ok.injEq] at h
                rcases persist_phase_cursor_cases h with ⟨he, hc⟩ | ⟨hc, herr⟩
                · left
                  exact ⟨he, hc⟩
                · right; right
                  refine ⟨by omega, hc, herr⟩

/-- The returned state of `extract_inspection_points_node` is either the
outer-handler error state or the body's successful return. -/
theorem extract_run_out_cases (resp : Except String InspectionPointsOutput)
    (s : ITPGenerationState) :
    (∃ e, extract_inspection_points_body resp s = .error e ∧
      extract_inspection_points_node resp s =
        { s with error := some ("Failed to extract inspection points: " ++ e) }) ∨
    (∃ ext, extract_inspection_points_body resp s =
        .ok (extract_inspection_points_node resp s, ext)) := by
  unfold extract_inspection_points_node extract_inspection_points_run
  cases hb : extract_inspection_points_body resp s with
  | error e => left; exact ⟨e, rfl, rfl⟩
  | ok pr =>
    right
    obtain ⟨ret, ext⟩ := pr
    exact ⟨ext, rfl⟩

/-- The returned state of `generate_individual_itp_node` is either the
outer-handler error state or the body's successful return. -/
theorem generate_run_out_cases (respG : Except String ITPItemsOutput)
    (pers : Except String PersistResult) (s : ITPGenerationState) :
    (∃ e, generate_individual_itp_body respG pers s = .error e ∧
      generate_individual_itp_node respG pers s =
        { s with error := some ("Failed to generate individual ITP: " ++ e) }) ∨
    (∃ app specs, generate_individual_itp_body respG pers s =
        .ok (generate_individual_itp_node respG pers s, app, specs)) := by
  unfold generate_individual_itp_node generate_individual_itp_run
  cases hb : generate_individual_itp_body respG pers s with
  | error e => left; exact ⟨e, rfl, rfl⟩
  | ok tr =>
    right
    obtain ⟨ret, app, specs⟩ := tr
    exact ⟨app, specs, rfl⟩

/-- One execution of `extract_inspection_points_node` keeps the cursor or
advances it by exactly one, and leaves it within `len(required_itps)`
unless the returned state carries an error. -/
theorem extract_node_cursor (resp : Except String InspectionPointsOutput)
    (s : ITPGenerationState) :
    ((extract_inspection_points_node resp s).current_itp_index.getD 0
        = s.current_itp_index.getD 0 ∨
     (extract_inspection_points_node resp s).current_itp_index.getD 0
        = s.current_itp_index.getD 0 + 1) ∧
    ((extract_inspection_points_node resp s).current_itp_index.getD 0
        ≤ (s.required_itps.getD []).length ∨
     truthyStr (extract_inspection_points_node resp s).error = true) := by
  rcases extract_run_out_cases resp s with ⟨e, hb, hout⟩ | ⟨ext, hb⟩
  · rw [hout]
    refine ⟨Or.inl rfl, Or.inr ?_⟩
    exact truthyStr_some_of_ne (append_ne_empty_left _ (by decide))
  · rcases extract_body_cursor_cases hb with ⟨he, hc⟩ | ⟨heq, hle⟩ | ⟨hlt, hc, herr⟩
    · exact ⟨Or.inl (by rw [hc]), Or.inr he⟩
    · rw [heq]
      exact ⟨Or.inl rfl, Or.inl hle⟩
    · constructor
      · right
        rw [hc]
        rfl
      · left
        rw [hc]
        simpa using hlt

/-- One execution of `generate_individual_itp_node` keeps the generation
cursor or advances it by exactly one, and leaves it within
`len(required_itps)` unless the returned state carries an error. -/
theorem generate_node_cursor (respG : Except String ITPItemsOutput)
    (pers : Except String PersistResult) (s : ITPGenerationState) :
    ((generate_individual_itp_node respG pers s).current_generation_index.getD 0
        = s.current_generation_index.getD 0 ∨
     (generate_individual_itp_node respG pers s).current_generation_index.getD 0
        = s.current_generation_index.getD 0 + 1) ∧
    ((generate_individual_itp_node respG pers s).current_generation_index.getD 0
        ≤ (s.required_itps.getD []).length ∨
     truthyStr (generate_individual_itp_node respG pers s).error = true) := by
  rcases generate_run_out_cases respG pers s with ⟨e, hb, hout⟩ | ⟨app, specs, hb⟩
  · rw [hout]
    refine ⟨Or.inl rfl, Or.inr ?_⟩
    exact truthyStr_some_of_ne (append_ne_empty_left _ (by decide))
  · rcases generate_body_cursor_cases hb with ⟨he, hc⟩ | ⟨heq, hle⟩ | ⟨hlt, hc, herr⟩
    · exact ⟨Or.inl (by rw [hc]), Or.inr he⟩
    · rw [heq]
      exact ⟨Or.inl rfl, Or.inl hle⟩
    · constructor
      · right
        rw [hc]
        rfl
      · left
        rw [hc]
        simpa using hlt

end ITPGen

/-- C9: the iteration cursors are monotonically non-decreasing: for every
input state and any collaborator replies, `extract_inspection_points_node`
returns `current_itp_index` unchanged or incremented by exactly one, and
`generate_individual_itp_node` likewise for `current_generation_index`;
moreover a returned cursor can exceed `len(required_itps)` only in a state
whose `error` field is set. -/
theorem itp_cursors_monotonic (respE : Except String ITPGen.InspectionPointsOutput)
    (respG : Except String ITPGen.ITPItemsOutput)
    (pers : Except String ITPGen.PersistResult)
    (s : ITPGen.ITPGenerationState) :
    (((ITPGen.extract_inspection_points_node respE s).current_itp_index.getD 0
        = s.current_itp_index.getD 0 ∨
      (ITPGen.extract_inspection_points_node respE s).current_itp_index.getD 0
        = s.current_itp_index.getD 0 + 1) ∧
     ((ITPGen.extract_inspection_points_node respE s).current_itp_index.getD 0
        ≤ (s.required_itps.getD []).length ∨
      truthyStr (ITPGen.extract_inspection_points_node respE s).error = true)) ∧
    (((ITPGen.generate_individual_itp_node respG pers s).current_generation_index.getD 0
        = s.current_generation_index.getD 0 ∨
      (ITPGen.generate_individual_itp_node respG pers s).current_generation_index.getD 0
        = s.current_generation_index.getD 0 + 1) ∧
     ((ITPGen.generate_individual_itp_node respG pers s).current_generation_index.getD 0
        ≤ (s.required_itps.getD []).length ∨
      truthyStr (ITPGen.generate_individual_itp_node respG pers s).error = true)) :=
  ⟨ITPGen.extract_node_cursor respE s, ITPGen.generate_node_cursor respG pers s⟩

/-- C6: the output projection of the ITP generation graph is a function of
the declared `OutputState` channels alone — two final states agreeing on
`required_itps`, `itp_standards_pairs`, `final_itp_items`,
`individual_itp_items`, `inspection_points` and `error` project to the same
result, whatever their `current_itp_index`, `current_generation_index`,
`applicable_standard_documents`, `pqp_content` or other internal fields. -/
theorem itp_output_projection_frame (s t : ITPGen.ITPGenerationState)
    (h1 : s.required_itps = t.required_itps)
    (h2 : s.itp_standards_pairs = t.itp_standards_pairs)
    (h3 : s.final_itp_items = t.final_itp_items)
    (h4 : s.individual_itp_items = t.individual_itp_items)
    (h5 : s.inspection_points = t.inspection_points)
    (h6 : s.error = t.error) :
    ITPGen.outputProjection s = ITPGen.outputProjection t := by
  unfold ITPGen.outputProjection
  rw [h1, h2, h3, h4, h5, h6]

/-- Witness for the projection frame property: states differing in every
internal channel still project identically. -/
theorem itp_output_projection_frame_witness :
    ITPGen.outputProjection
        { ITPGen.baseState with current_itp_index := some 3
                                current_generation_index := some 2
                                pqp_content := some "private"
                                applicable_standard_documents := some []
                                project_id := "other" }
      = ITPGen.outputProjection ITPGen.baseState ∧
    ({ ITPGen.baseState with current_itp_index := some 3
                             current_generation_index := some 2
                             pqp_content := some "private"
                             applicable_standard_documents := some []
                             project_id := "other" } : ITPGen.ITPGenerationState)
      ≠ ITPGen.baseState :=
  ⟨itp_output_projection_frame _ _ rfl rfl rfl rfl rfl rfl, by decide⟩

/-- Counterexample to C2 as stated: with `required_itps = []` the router's
very first evaluation yields the label `"error"` (mapped to END), not the
next stage `"generate_individual_itp"`. -/
theorem itp_router_empty_selects_error :
    ITPGen.should_continue_processing { ITPGen.baseState with required_itps := some [] }
      = "error" ∧
    ITPGen.should_continue_processing { ITPGen.baseState with required_itps := some [] }
      ≠ "generate_individual_itp" := by
  constructor
  · rfl
  · decide

/-- C2 (amended): for every state whose `required_itps` list is missing or
empty, the router returns `"error"` on its very first evaluation — which
every conditional-edge table maps to END — and the loop node never
executes. -/
theorem itp_router_empty_routes_to_end
    (o : Nat → Except String ITPGen.InspectionPointsOutput)
    (s : ITPGen.ITPGenerationState) (h : s.required_itps.getD [] = [])
    (fuel : Nat) :
    ITPGen.should_continue_processing s = "error" ∧
    ITPGen.match_standards_edges (ITPGen.should_continue_processing s)
      = some ITPGen.RouteTarget.toEND ∧
    ITPGen.loopExtract o fuel s = (0, s) := by
  have hr : ITPGen.should_continue_processing s = "error" := by
    unfold ITPGen.should_continue_processing
    by_cases he : truthyStr s.error = true
    · rw [if_pos he]
    · rw [if_neg he]
      rw [h]
      rfl
  refine ⟨hr, by rw [hr]; rfl, ?_⟩
  cases fuel with
  | zero => rfl
  | succ n =>
    unfold ITPGen.loopExtract
    rw [hr]
    rfl

/-- Witness for the amended C2 at a concrete empty-list state. -/
theorem itp_router_empty_routes_to_end_witness :
    ({ ITPGen.baseState with required_itps := some [] } :
        ITPGen.ITPGenerationState).required_itps.getD [] = [] ∧
    (ITPGen.should_continue_processing { ITPGen.baseState with required_itps := some [] }
        = "error" ∧
     ITPGen.match_standards_edges
        (ITPGen.should_continue_processing { ITPGen.baseState with required_itps := some [] })
        = some ITPGen.RouteTarget.toEND ∧
     ITPGen.loopExtract (fun _ => .ok { reasoning := "", itp_inspection_points := [] }) 5
        { ITPGen.baseState with required_itps := some [] }
        = (0, { ITPGen.baseState with required_itps := some [] })) :=
  ⟨rfl, itp_router_empty_routes_to_end (fun _ => .ok { reasoning := "", itp_inspection_points := [] })
     { ITPGen.baseState with required_itps := some [] } rfl 5⟩

/-- Counterexample to C4 as stated: `extract_inspection_points_node` runs
`existing_points.extend(normalized)` on the list object taken from the
input state, so after the call the caller's state is no longer equal to
what was passed in. -/
theorem itp_extract_node_mutates_input :
    (ITPGen.extract_inspection_points_run (.ok ITPGen.wResp) ITPGen.wLoopState).1
      ≠ ITPGen.wLoopState := by
  decide

/-- C4 (amended): nodes return a freshly built full-state dict, but the two
loop nodes do mutate the input in place through `list.extend` /
`list.append`: after a call the caller's state is either unchanged or
differs exactly by the extended `inspection_points` (respectively appended
`individual_itp_items`) list that the returned state also carries. -/
theorem itp_nodes_mutation_shape (respE : Except String ITPGen.InspectionPointsOutput)
    (respG : Except String ITPGen.ITPItemsOutput)
    (pers : Except String ITPGen.PersistResult)
    (s : ITPGen.ITPGenerationState) :
    ((ITPGen.extract_inspection_points_run respE s).1 = s ∨
     (ITPGen.extract_inspection_points_run respE s).1 =
       { s with inspection_points :=
           (ITPGen.extract_inspection_points_node respE s).inspection_points }) ∧
    ((ITPGen.generate_individual_itp_run respG pers s).inputAfter = s ∨
     (ITPGen.generate_individual_itp_run respG pers s).inputAfter =
       { s with individual_itp_items :=
           (ITPGen.generate_individual_itp_node respG pers s).individual_itp_items }) := by
  constructor
  · unfold ITPGen.extract_inspection_points_node ITPGen.extract_inspection_points_run
    cases hb : ITPGen.extract_inspection_points_body respE s with
    | error e => left; rfl
    | ok pr =>
      obtain ⟨ret, ext⟩ := pr
      dsimp only
      split
      · right; rfl
      · left; rfl
  · unfold ITPGen.generate_individual_itp_node ITPGen.generate_individual_itp_run
    cases hb : ITPGen.generate_individual_itp_body respG pers s with
    | error e => left; rfl
    | ok tr =>
      obtain ⟨ret, app, specs⟩ := tr
      dsimp only
      split
      · right; rfl
      · left; rfl

namespace DocExtract

theorem mergeResults_fst (rs : List (Except String SingleOutcome)) :
    (mergeResults rs).1 = rs.filterMap (fun r =>
      match r with
      | .ok (.document d) => some d
      | _ => none) := by
  induction rs with
  | nil => rfl
  | cons r rest ih =>
    cases r with
    | error e => simpa [mergeResults, List.filterMap_cons] using ih
    | ok o =>
      cases o with
      | document d => simp [mergeResults, List.filterMap_cons, ih]
      | failedRec f => simpa [mergeResults, List.filterMap_cons] using ih

theorem mergeResults_snd (rs : List (Except String SingleOutcome)) :
    (mergeResults rs).2 = rs.filterMap (fun r =>
      match r with
      | .ok (.failedRec f) => some f
      | _ => none) := by
  induction rs with
  | nil => rfl
  | cons r rest ih =>
    cases r with
    | error e => simpa [mergeResults, List.filterMap_cons] using ih
    | ok o =>
      cases o with
      | document d => simpa [mergeResults, List.filterMap_cons] using ih
      | failedRec f => simp [mergeResults, List.filterMap_cons, ih]

end DocExtract

/-- C5: the fan-out/gather merge of `document_extraction_node` is ordered
by the input `doc_details` list: `txt_project_documents` is exactly the
in-order sublist of successfully extracted documents (converted to dicts),
and `failed_documents` the in-order sublist of per-document failure
records — for any collaborator replies, i.e. independently of task
completion order, which `asyncio.gather` hides by construction. -/
theorem doc_extraction_preserves_input_order
    (db : List String → List DocExtract.DocDetail)
    (sas : String → Except String String)
    (azure : String → Option String → Except String DocExtract.AzureResult)
    (s : DocExtract.ExtractionState) :
    (DocExtract.document_extraction_node db sas azure s).txt_project_documents =
      (DocExtract.fetch_document_details db s).filterMap (fun d =>
        match DocExtract.extract_single_document sas azure s.project_id d with
        | .ok (.document doc) => some (DocExtract.docToDict doc)
        | _ => none) ∧
    (DocExtract.document_extraction_node db sas azure s).failed_documents =
      (DocExtract.fetch_document_details db s).filterMap (fun d =>
        match DocExtract.extract_single_document sas azure s.project_id d with
        | .ok (.failedRec f) => some f
        | _ => none) := by
  unfold DocExtract.document_extraction_node
  constructor
  · dsimp only
    rw [DocExtract.mergeResults_fst, List.filterMap_map, List.map_filterMap]
    apply List.filterMap_congr
    intro d _
    simp only [Function.comp_apply]
    cases hx : DocExtract.extract_single_document sas azure s.project_id d with
    | error e => rfl
    | ok o =>
      cases o with
      | document doc => rfl
      | failedRec f => rfl
  · dsimp only
    rw [DocExtract.mergeResults_snd, List.filterMap_map]
    rfl

/-- C8: `document_extraction_node` always reports `done = true`; it reports
`failed = true` exactly when no document was successfully extracted, in
which case `error` is the fixed human-readable string, and otherwise
`error` is empty; and every per-document failure record produced by an
extraction task is accumulated in `failed_documents`. -/
theorem doc_extraction_result_flags
    (db : List String → List DocExtract.DocDetail)
    (sas : String → Except String String)
    (azure : String → Option String → Except String DocExtract.AzureResult)
    (s : DocExtract.ExtractionState) :
    (DocExtract.document_extraction_node db sas azure s).done = true ∧
    ((DocExtract.document_extraction_node db sas azure s).failed = true ↔
      (DocExtract.document_extraction_node db sas azure s).txt_project_documents = []) ∧
    ((DocExtract.document_extraction_node db sas azure s).failed = true →
      (DocExtract.document_extraction_node db sas azure s).error =
        "Document Extraction produced no content") ∧
    ((DocExtract.document_extraction_node db sas azure s).failed = false →
      (DocExtract.document_extraction_node db sas azure s).error = "") ∧
    (∀ d ∈ DocExtract.fetch_document_details db s, ∀ f,
      DocExtract.extract_single_document sas azure s.project_id d =
        .ok (.failedRec f) →
      f ∈ (DocExtract.document_extraction_node db sas azure s).failed_documents) := by
  refine ⟨rfl, ?_, ?_, ?_, ?_⟩
  · simp only [DocExtract.document_extraction_node]
    simp [List.length_eq_zero]
  · intro h
    simp only [DocExtract.document_extraction_node] at h ⊢
    simp only [decide_eq_true_eq] at h
    simp [h]
  · intro h
    simp only [DocExtract.document_extraction_node] at h ⊢
    simp only [decide_eq_false_iff_not] at h
    simp [h]
  · intro d hd f hf
    simp only [DocExtract.document_extraction_node]
    rw [DocExtract.mergeResults_snd, List.filterMap_map]
    apply List.mem_filterMap.mpr
    refine ⟨d, hd, ?_⟩
    simp only [Function.comp_apply, hf]

/-- Witness for C8 at a concrete run in which document `d1` fails. -/
theorem doc_extraction_result_flags_witness :
    (DocExtract.wDetail ∈ DocExtract.fetch_document_details DocExtract.wDb DocExtract.wState ∧
     DocExtract.extract_single_document DocExtract.wSas DocExtract.wAzure "p" DocExtract.wDetail
       = .ok (.failedRec DocExtract.wFailed)) ∧
    DocExtract.wFailed ∈
      (DocExtract.document_extraction_node DocExtract.wDb DocExtract.wSas DocExtract.wAzure
        DocExtract.wState).failed_documents :=
  ⟨⟨by
      rw [show DocExtract.fetch_document_details DocExtract.wDb DocExtract.wState
            = [DocExtract.wDetail] from rfl]
      exact List.mem_singleton.mpr rfl, rfl⟩,
   (doc_extraction_result_flags DocExtract.wDb DocExtract.wSas DocExtract.wAzure
       DocExtract.wState).2.2.2.2 DocExtract.wDetail
     (by
       rw [show DocExtract.fetch_document_details DocExtract.wDb DocExtract.wState
             = [DocExtract.wDetail] from rfl]
       exact List.mem_singleton.mpr rfl)
     DocExtract.wFailed rfl⟩

/-- C3: for each node of the ITP generation graph with raise-points, a
failure raised inside the node body is converted by the node's handler into
a non-empty `error` field on the returned state (the exception never
escapes the node); every router evaluation on a state with a truthy `error`
yields the label `"error"`; and all three conditional-edge tables map
`"error"` to the terminal END. -/
theorem itp_failures_converted_and_routed
    (respL : Except String ITPGen.ITPListOutput)
    (fetchRef : Except String (List ITPGen.RefStd))
    (respM : Except String ITPGen.StandardsMatchingOutput)
    (fetchContent : List String → Except String (List ITPGen.StdDoc))
    (respE : Except String ITPGen.InspectionPointsOutput)
    (respG : Except String ITPGen.ITPItemsOutput)
    (pers : Except String ITPGen.PersistResult)
    (s : ITPGen.ITPGenerationState) :
    (∀ e, ITPGen.extract_required_itps_body respL s = .error e →
      truthyStr (ITPGen.extract_required_itps_node respL s).error = true) ∧
    (∀ e, ITPGen.match_standards_body fetchRef respM fetchContent s = .error e →
      truthyStr (ITPGen.match_standards_to_itps_node fetchRef respM fetchContent s).error = true) ∧
    (∀ e, ITPGen.extract_inspection_points_body respE s = .error e →
      truthyStr (ITPGen.extract_inspection_points_node respE s).error = true) ∧
    (∀ e, ITPGen.generate_individual_itp_body respG pers s = .error e →
      truthyStr (ITPGen.generate_individual_itp_node respG pers s).error = true) ∧
    (truthyStr s.error = true → ITPGen.should_continue_processing s = "error") ∧
    (ITPGen.match_standards_edges "error" = some ITPGen.RouteTarget.toEND ∧
     ITPGen.extract_inspection_points_edges "error" = some ITPGen.RouteTarget.toEND ∧
     ITPGen.generate_individual_itp_edges "error" = some ITPGen.RouteTarget.toEND) := by
  refine ⟨?_, ?_, ?_, ?_, ?_, rfl, rfl, rfl⟩
  · intro e he
    unfold ITPGen.extract_required_itps_node
    rw [he]
    exact truthyStr_some_of_ne (append_ne_empty_left _ (by decide))
  · intro e he
    unfold ITPGen.match_standards_to_itps_node
    rw [he]
    exact truthyStr_some_of_ne (append_ne_empty_left _ (by decide))
  · intro e he
    rcases ITPGen.extract_run_out_cases respE s with ⟨e2, hb, hout⟩ | ⟨ext, hb⟩
    · rw [hout]
      exact truthyStr_some_of_ne (append_ne_empty_left _ (by decide))
    · rw [he] at hb
      cases hb
  · intro e he
    rcases ITPGen.generate_run_out_cases respG pers s with ⟨e2, hb, hout⟩ | ⟨app, specs, hb⟩
    · rw [hout]
      exact truthyStr_some_of_ne (append_ne_empty_left _ (by decide))
    · rw [he] at hb
      cases hb
  · intro h
    unfold ITPGen.should_continue_processing
    rw [if_pos h]

/-- Witness for C3: a concrete error state routes to `"error"`, and a
concrete raised `KeyError` in `extract_required_itps_node` is converted
into a truthy `error` field. -/
theorem itp_failures_converted_and_routed_witness :
    (truthyStr ITPGen.wErrState.error = true ∧
     ITPGen.should_continue_processing ITPGen.wErrState = "error") ∧
    (ITPGen.extract_required_itps_body (.ok ITPGen.wListResp) ITPGen.wBadDocState
       = .error "KeyError: file_name" ∧
     truthyStr (ITPGen.extract_required_itps_node (.ok ITPGen.wListResp)
       ITPGen.wBadDocState).error = true) :=
  ⟨⟨by decide,
    (itp_failures_converted_and_routed (.ok ITPGen.wListResp) (.ok []) (.error "x")
      (fun _ => .ok []) (.error "x") (.error "x") (.error "x")
      ITPGen.wErrState).2.2.2.2.1 (by decide)⟩,
   ⟨rfl,
    (itp_failures_converted_and_routed (.ok ITPGen.wListResp) (.ok []) (.error "x")
      (fun _ => .ok []) (.error "x") (.error "x") (.error "x")
      ITPGen.wBadDocState).1 "KeyError: file_name" rfl⟩⟩

namespace ITPGen

/-- Every spec handed to the persistence layer by `generate_persist_phase`
carries the idempotency key `itpIdemKey reqs itp`. -/
theorem persist_phase_spec_keys {pers : Except String PersistResult}
    {s : ITPGenerationState} {ci : Nat} {itp : RequiredItp}
    {reqs : List RequiredItp} {pts : List FlatPoint} {resp : ITPItemsOutput}
    {out : ITPGenerationState} {app : Bool} {specs : List IdemAssetSpec}
    (h : generate_persist_phase pers s ci itp reqs pts resp = (out, app, specs)) :
    ∀ spec ∈ specs, spec.idempotency_key = itpIdemKey reqs itp := by
  unfold generate_persist_phase at h
  split at h <;>
    [skip;
     (split at h <;> [skip; (split at h <;> [skip; (split at h <;> [skip; skip])])])] <;>
  · simp only [Prod.mk.injEq] at h
    intro spec hs
    rw [← h.2.2, List.mem_singleton] at hs
    rw [hs]
    rfl

/-- Every spec handed to the persistence layer by one execution of
`generate_individual_itp_node` carries the key derived from the ITP at the
current generation cursor. -/
theorem generate_run_spec_keys (respG : Except String ITPItemsOutput)
    (pers : Except String PersistResult) (s : ITPGenerationState) :
    ∀ spec ∈ (generate_individual_itp_run respG pers s).persisted,
      ∃ current, (s.required_itps.getD []).get? (s.current_generation_index.getD 0)
          = some current ∧
        spec.idempotency_key = itpIdemKey (s.required_itps.getD []) current := by
  unfold generate_individual_itp_run
  cases hb : generate_individual_itp_body respG pers s with
  | error e => intro spec hs; simp at hs
  | ok tr =>
    obtain ⟨ret, app, specs⟩ := tr
    intro spec hs
    simp only at hs
    unfold generate_individual_itp_body at hb
    simp only [Bind.bind, Except.bind, Pure.pure, Except.pure] at hb
    split at hb
    · simp only [Except.ok.injEq, Prod.mk.injEq] at hb
      rw [← hb.2.2] at hs
      simp at hs
    · split at hb
      · simp only [Except.ok.injEq, Prod.mk.injEq] at hb
        rw [← hb.2.2] at hs
        simp at hs
      · split at hb
        · simp only [Except.ok.injEq, Prod.mk.injEq] at hb
          rw [← hb.2.2] at hs
          simp at hs
        · split at hb
          · simp only [Except.ok.injEq, Prod.mk.injEq] at hb
            rw [← hb.2.2] at hs
            simp at hs
          · split at hb
            · simp only [Except.ok.injEq, Prod.mk.injEq] at hb
              rw [← hb.2.2] at hs
              simp at hs
            · split at hb
              · cases hb
              · split at hb
                · simp only [Except.ok.injEq, Prod.mk.injEq] at hb
                  rw [← hb.2.2] at hs
                  simp at hs
                · rename_i hnotge _ _ _ _ _ response
                  simp only [Except.ok.injEq] at hb
                  refine ⟨(s.required_itps.getD []).get
                      ⟨s.current_generation_index.getD 0, Nat.lt_of_not_le hnotge⟩, ?_, ?_⟩
                  · exact List.get?_eq_get (Nat.lt_of_not_le hnotge)
                  · exact persist_phase_spec_keys hb spec hs

end ITPGen

/-- C7: idempotency keys are deterministic functions of stable inputs: for
every document dict, `create_asset_write_specs` assigns the key
`"doc_extract:" + project_id + ":" + document id`, and every ITP asset spec
handed to the persistence layer by `generate_individual_itp_node` carries a
key derived from the matched `itp_number` and `revision_code` (or the
slugified ITP name) of the ITP at the current generation cursor. -/
theorem idempotency_keys_deterministic :
    (∀ s : DocExtract.ExtractionState,
      (DocExtract.create_asset_write_specs s).map (fun sp => sp.idempotency_key) =
        s.txt_project_documents.map
          (fun d => "doc_extract:" ++ s.project_id ++ ":" ++ pyStr d.id)) ∧
    (∀ (respG : Except String ITPGen.ITPItemsOutput)
       (pers : Except String ITPGen.PersistResult)
       (s : ITPGen.ITPGenerationState),
      ∀ spec ∈ (ITPGen.generate_individual_itp_run respG pers s).persisted,
        ∃ current, (s.required_itps.getD []).get? (s.current_generation_index.getD 0)
            = some current ∧
          spec.idempotency_key = ITPGen.itpIdemKey (s.required_itps.getD []) current) := by
  constructor
  · intro s
    unfold DocExtract.create_asset_write_specs
    rw [List.map_map]
    rfl
  · exact ITPGen.generate_run_spec_keys

/-- Witness for C7 on a concrete generation pass: the persisted spec is
`wSpec` and its key matches the deterministic formula. -/
theorem idempotency_keys_deterministic_witness :
    ITPGen.wSpec ∈ (ITPGen.generate_individual_itp_run ITPGen.wRespG ITPGen.wPers
      ITPGen.wGenState).persisted ∧
    (∃ current, (ITPGen.wGenState.required_itps.getD []).get?
        (ITPGen.wGenState.current_generation_index.getD 0) = some current ∧
      ITPGen.wSpec.idempotency_key =
        ITPGen.itpIdemKey (ITPGen.wGenState.required_itps.getD []) current) :=
  have hmem : ITPGen.wSpec ∈ (ITPGen.generate_individual_itp_run ITPGen.wRespG ITPGen.wPers
      ITPGen.wGenState).persisted := by
    rw [show (ITPGen.generate_individual_itp_run ITPGen.wRespG ITPGen.wPers
        ITPGen.wGenState).persisted = [ITPGen.wSpec] from rfl]
    exact List.mem_singleton.mpr rfl
  ⟨hmem, idempotency_keys_deterministic.2 ITPGen.wRespG ITPGen.wPers ITPGen.wGenState
      ITPGen.wSpec hmem⟩

namespace ITPGen

theorem docLineE_ok {d : ProjDoc} (h1 : d.file_name.isSome = true)
    (h2 : d.id.isSome = true) (h3 : d.content.isSome = true) :
    ∃ t, docLineE d = .ok t := by
  obtain ⟨fn, hfn⟩ := Option.isSome_iff_exists.mp h1
  obtain ⟨i, hi⟩ := Option.isSome_iff_exists.mp h2
  obtain ⟨c, hc⟩ := Option.isSome_iff_exists.mp h3
  refine ⟨"Document: " ++ fn ++ " (ID: " ++ i ++ ")\n" ++ c, ?_⟩
  unfold docLineE pyIndexS
  rw [hfn, hi, hc]
  rfl

theorem docsTextE_ok {ds : List ProjDoc}
    (h : ∀ d ∈ ds, d.file_name.isSome = true ∧ d.id.isSome = true ∧ d.content.isSome = true) :
    ∃ t, docsTextE ds = .ok t := by
  suffices hs : ∃ ls, ds.mapM docLineE = .ok ls by
    obtain ⟨ls, hls⟩ := hs
    refine ⟨String.intercalate "\n\n" ls, ?_⟩
    unfold docsTextE
    simp only [Bind.bind, Except.bind, hls, Pure.pure, Except.pure]
  induction ds with
  | nil => exact ⟨[], rfl⟩
  | cons d ds ih =>
    obtain ⟨ht1, ht2, ht3⟩ := h d (List.mem_cons_self d ds)
    obtain ⟨t, ht⟩ := docLineE_ok ht1 ht2 ht3
    obtain ⟨ls, hls⟩ := ih (fun x hx => h x (List.mem_cons_of_mem d hx))
    refine ⟨t :: ls, ?_⟩
    rw [List.mapM_cons]
    simp only [Bind.bind, Except.bind, ht, hls, Pure.pure, Except.pure]

theorem stdLineE_ok {d : StdDoc} (h1 : d.spec_id.isSome = true)
    (h2 : d.spec_name.isSome = true) (h3 : d.content.isSome = true) :
    ∃ t, stdLineE d = .ok t := by
  obtain ⟨sid, hsid⟩ := Option.isSome_iff_exists.mp h1
  obtain ⟨n, hn⟩ := Option.isSome_iff_exists.mp h2
  obtain ⟨c, hc⟩ := Option.isSome_iff_exists.mp h3
  refine ⟨"Standard: " ++ n ++ " (" ++ sid ++ ")\n" ++ c ++ "\n\n", ?_⟩
  unfold stdLineE pyIndexS
  rw [hsid, hn, hc]
  rfl

theorem standardsTextE_ok {ds : List StdDoc}
    (h : ∀ d ∈ ds, d.spec_id.isSome = true ∧ d.spec_name.isSome = true ∧
      d.content.isSome = true) :
    ∃ t, standardsTextE ds = .ok t := by
  suffices hs : ∃ ls, ds.mapM stdLineE = .ok ls by
    obtain ⟨ls, hls⟩ := hs
    refine ⟨String.join ls, ?_⟩
    unfold standardsTextE
    simp only [Bind.bind, Except.bind, hls, Pure.pure, Except.pure]
  induction ds with
  | nil => exact ⟨[], rfl⟩
  | cons d ds ih =>
    obtain ⟨ht1, ht2, ht3⟩ := h d (List.mem_cons_self d ds)
    obtain ⟨t, ht⟩ := stdLineE_ok ht1 ht2 ht3
    obtain ⟨ls, hls⟩ := ih (fun x hx => h x (List.mem_cons_of_mem d hx))
    refine ⟨t :: ls, ?_⟩
    rw [List.mapM_cons]
    simp only [Bind.bind, Except.bind, ht, hls, Pure.pure, Except.pure]

theorem filterRelevantE_ok {ids : List String} {ds : List StdDoc}
    (h : ∀ d ∈ ds, d.spec_id.isSome = true) :
    ∃ rel, filterRelevantE ids ds = .ok rel := by
  induction ds with
  | nil => exact ⟨[], rfl⟩
  | cons d ds ih =>
    obtain ⟨sid, hsid⟩ := Option.isSome_iff_exists.mp (h d (List.mem_cons_self d ds))
    obtain ⟨rel, hrel⟩ := ih (fun x hx => h x (List.mem_cons_of_mem d hx))
    refine ⟨if ids.contains sid then d :: rel else rel, ?_⟩
    unfold filterRelevantE pyIndexS
    rw [hsid]
    simp only [Bind.bind, Except.bind, hrel, Pure.pure, Except.pure]

theorem filterRelevantE_subset {ids : List String} {ds rel : List StdDoc}
    (h : filterRelevantE ids ds = .ok rel) : ∀ d ∈ rel, d ∈ ds := by
  induction ds generalizing rel with
  | nil =>
    unfold filterRelevantE at h
    cases h
    simp
  | cons a ds ih =>
    unfold filterRelevantE at h
    simp only [Bind.bind, Except.bind] at h
    cases hsid : pyIndexS a.spec_id "spec_id" with
    | error e => rw [hsid] at h; cases h
    | ok sid =>
      rw [hsid] at h
      cases hrest : filterRelevantE ids ds with
      | error e => rw [hrest] at h; cases h
      | ok r2 =>
        rw [hrest] at h
        simp only [Pure.pure, Except.pure, Except.ok.injEq] at h
        intro d hd
        rw [← h] at hd
        by_cases hc : ids.contains sid = true
        · rw [if_pos hc] at hd
          rcases List.mem_cons.mp hd with h1 | h2
          · exact h1 ▸ List.mem_cons_self a ds
          · exact List.mem_cons_of_mem a (ih hrest d h2)
        · rw [if_neg hc] at hd
          exact List.mem_cons_of_mem a (ih hrest d hd)

/-- Frame property of `extract_inspection_points_body`: the returned state
differs from the input only in `inspection_points`, `current_itp_index`
and `error`. -/
theorem extract_body_frame {resp : Except String InspectionPointsOutput}
    {s out : ITPGenerationState} {ext : Bool}
    (h : extract_inspection_points_body resp s = .ok (out, ext)) :
    out.required_itps = s.required_itps ∧
    out.itp_standards_pairs = s.itp_standards_pairs ∧
    out.applicable_standard_documents = s.applicable_standard_documents ∧
    out.current_generation_index = s.current_generation_index ∧
    out.txt_project_documents = s.txt_project_documents := by
  unfold extract_inspection_points_body at h
  simp only [Bind.bind, Except.bind, Pure.pure, Except.pure] at h
  repeat' split at h
  all_goals first
  | (simp only [Except.ok.injEq, Prod.mk.injEq] at h
     rw [← h.1]
     exact ⟨rfl, rfl, rfl, rfl, rfl⟩)
  | cases h

/-- Under the loop preconditions (all guard fields truthy, cursor strictly
inside the list, LLM reply present), a successful body return advances the
cursor by one and clears `error`. -/
theorem extract_body_advances {resp : Except String InspectionPointsOutput}
    {s out : ITPGenerationState} {ext : Bool}
    (h : extract_inspection_points_body resp s = .ok (out, ext))
    (hreqt : truthyList s.required_itps = true)
    (hpairs : truthyList s.itp_standards_pairs = true)
    (hdocs : truthyList s.applicable_standard_documents = true)
    (hlt : s.current_itp_index.getD 0 < (s.required_itps.getD []).length)
    (hok : resp.isOk = true) :
    out.current_itp_index = some (s.current_itp_index.getD 0 + 1) ∧ out.error = none := by
  unfold extract_inspection_points_body at h
  simp only [Bind.bind, Except.bind, Pure.pure, Except.pure] at h
  split at h
  · rename_i hc
    rw [hreqt] at hc
    simp at hc
  · split at h
    · rename_i hc
      rw [hpairs] at hc
      simp at hc
    · split at h
      · rename_i hc
        rw [hdocs] at hc
        simp at hc
      · split at h
        · rename_i hc
          omega
        · split at h
          · rename_i hc
            omega
          · split at h
            · simp only [Except.ok.injEq, Prod.mk.injEq] at h
              rw [← h.1]
              exact ⟨rfl, rfl⟩
            · split at h
              · cases h
              · split at h
                · simp only [Except.ok.injEq, Prod.mk.injEq] at h
                  rw [← h.1]
                  exact ⟨rfl, rfl⟩
                · split at h
                  · cases h
                  · split at h
                    · cases h
                    · split at h
                      · simp [Except.isOk, Except.toBool] at hok
                      · simp only [Except.ok.injEq, Prod.mk.injEq] at h
                        rw [← h.1]
                        exact ⟨rfl, rfl⟩

/-- When every project document carries `file_name`, `id` and `content`
and every standard document carries `spec_id`, `spec_name` and `content`,
the body of `extract_inspection_points_node` cannot raise. -/
theorem extract_body_no_raise {resp : Except String InspectionPointsOutput}
    {s : ITPGenerationState} {e : String}
    (h : extract_inspection_points_body resp s = .error e)
    (htxt : ∀ d ∈ s.txt_project_documents, d.file_name.isSome = true ∧
      d.id.isSome = true ∧ d.content.isSome = true)
    (hstd : ∀ d ∈ s.applicable_standard_documents.getD [], d.spec_id.isSome = true ∧
      d.spec_name.isSome = true ∧ d.content.isSome = true) :
    False := by
  unfold extract_inspection_points_body at h
  simp only [Bind.bind, Except.bind, Pure.pure, Except.pure] at h
  split at h
  · cases h
  · split at h
    · cases h
    · split at h
      · cases h
      · split at h
        · cases h
        · split at h
          · cases h
          · split at h
            · cases h
            · split at h
              · rename_i e1 heq
                obtain ⟨rel, hrel⟩ := filterRelevantE_ok (fun d hd => (hstd d hd).1)
                rw [hrel] at heq
                cases heq
              · rename_i rel hrelok
                split at h
                · cases h
                · split at h
                  · rename_i e2 heq2
                    obtain ⟨t, ht⟩ := standardsTextE_ok
                      (fun d hd => hstd d (filterRelevantE_subset hrelok d hd))
                    rw [ht] at heq2
                    cases heq2
                  · split at h
                    · rename_i e3 heq3
                      obtain ⟨t, ht⟩ := docsTextE_ok htxt
                      rw [ht] at heq3
                      cases heq3
                    · split at h
                      · cases h
                      · cases h

/-- Combined node-level advance: under the loop preconditions one execution
of `extract_inspection_points_node` advances the cursor, clears `error`,
and leaves every other loop-relevant channel unchanged. -/
theorem extract_node_advance_full (resp : Except String InspectionPointsOutput)
    {s : ITPGenerationState}
    (hreqt : truthyList s.required_itps = true)
    (hpairs : truthyList s.itp_standards_pairs = true)
    (hdocs : truthyList s.applicable_standard_documents = true)
    (hlt : s.current_itp_index.getD 0 < (s.required_itps.getD []).length)
    (htxt : ∀ d ∈ s.txt_project_documents, d.file_name.isSome = true ∧
      d.id.isSome = true ∧ d.content.isSome = true)
    (hstd : ∀ d ∈ s.applicable_standard_documents.getD [], d.spec_id.isSome = true ∧
      d.spec_name.isSome = true ∧ d.content.isSome = true)
    (hok : resp.isOk = true) :
    (extract_inspection_points_node resp s).current_itp_index
        = some (s.current_itp_index.getD 0 + 1) ∧
    (extract_inspection_points_node resp s).error = none ∧
    (extract_inspection_points_node resp s).required_itps = s.required_itps ∧
    (extract_inspection_points_node resp s).itp_standards_pairs = s.itp_standards_pairs ∧
    (extract_inspection_points_node resp s).applicable_standard_documents
        = s.applicable_standard_documents ∧
    (extract_inspection_points_node resp s).current_generation_index
        = s.current_generation_index ∧
    (extract_inspection_points_node resp s).txt_project_documents
        = s.txt_project_documents := by
  rcases extract_run_out_cases resp s with ⟨e, hb, hout⟩ | ⟨ext, hb⟩
  · exact (extract_body_no_raise hb htxt hstd).elim
  · have hadv := extract_body_advances hb hreqt hpairs hdocs hlt hok
    have hfr := extract_body_frame hb
    exact ⟨hadv.1, hadv.2, hfr.1, hfr.2.1, hfr.2.2.1, hfr.2.2.2.1, hfr.2.2.2.2⟩

/-- The router label under the loop preconditions: keep looping on
`extract_inspection_points` while the cursor is inside the list, otherwise
fall through to `generate_individual_itp`. -/
theorem route_loop_label {s : ITPGenerationState} {l : List RequiredItp}
    (hreq : s.required_itps = some l) (hne : l ≠ [])
    (herr : truthyStr s.error = false)
    (hgen : s.current_generation_index.getD 0 = 0) :
    should_continue_processing s =
      (if s.current_itp_index.getD 0 ≥ l.length then "generate_individual_itp"
       else "extract_inspection_points") := by
  have hlp : 0 < l.length := List.length_pos.mpr hne
  have hie : l.isEmpty = false := by
    cases l with
    | nil => exact absurd rfl hne
    | cons a t => rfl
  unfold should_continue_processing
  rw [hreq]
  simp only [Option.getD_some]
  rw [if_neg (show ¬(truthyStr s.error = true) by rw [herr]; exact Bool.false_ne_true)]
  rw [hie]
  simp only [Bool.false_eq_true, if_false]
  rw [if_neg (show ¬(s.current_generation_index.getD 0 ≥ l.length) by omega)]
  by_cases hge : s.current_itp_index.getD 0 ≥ l.length
  · rw [if_pos hge, if_pos hge]
  · rw [if_neg hge, if_neg hge, if_pos (by omega)]

/-- The loop lemma, by induction on the remaining distance to the end of
the list. -/
theorem loopExtract_exact (d : Nat) :
    ∀ (o : Nat → Except String InspectionPointsOutput) (s : ITPGenerationState)
      (l : List RequiredItp),
    s.required_itps = some l → l ≠ [] →
    truthyList s.itp_standards_pairs = true →
    truthyList s.applicable_standard_documents = true →
    truthyStr s.error = false →
    s.current_generation_index.getD 0 = 0 →
    (∀ dd ∈ s.txt_project_documents, dd.file_name.isSome = true ∧
      dd.id.isSome = true ∧ dd.content.isSome = true) →
    (∀ dd ∈ s.applicable_standard_documents.getD [], dd.spec_id.isSome = true ∧
      dd.spec_name.isSome = true ∧ dd.content.isSome = true) →
    (∀ n, (o n).isOk = true) →
    s.current_itp_index.getD 0 ≤ l.length →
    l.length - s.current_itp_index.getD 0 = d →
    ∀ extra, ∃ t, loopExtract o (d + extra) s = (d, t) ∧
      should_continue_processing t = "generate_individual_itp" ∧
      t.current_itp_index = some l.length := by
  induction d with
  | zero =>
    intro o s l hreq hne hpairs hdocs herr hgen htxt hstd hok hle hd extra
    have hlp : 0 < l.length := List.length_pos.mpr hne
    have hi : s.current_itp_index.getD 0 = l.length := by omega
    have hroute : should_continue_processing s = "generate_individual_itp" := by
      rw [route_loop_label hreq hne herr hgen, if_pos (by omega)]
    refine ⟨s, ?_, hroute, ?_⟩
    · cases extra with
      | zero => rfl
      | succ n =>
        show loopExtract o (0 + (n + 1)) s = (0, s)
        rw [Nat.zero_add]
        unfold loopExtract
        rw [if_neg (by rw [hroute]; exact (by decide : ("generate_individual_itp" : String) ≠ "extract_inspection_points"))]
    · cases hci : s.current_itp_index with
      | none =>
        rw [hci] at hi
        simp at hi
        omega
      | some k =>
        rw [hci] at hi
        simp at hi
        rw [hi]
  | succ d ih =>
    intro o s l hreq hne hpairs hdocs herr hgen htxt hstd hok hle hd extra
    have hlt : s.current_itp_index.getD 0 < l.length := by omega
    have hreqt : truthyList s.required_itps = true := by
      rw [hreq]
      cases l with
      | nil => exact absurd rfl hne
      | cons a t => rfl
    have hroute : should_continue_processing s = "extract_inspection_points" := by
      rw [route_loop_label hreq hne herr hgen, if_neg (by omega)]
    have hlt' : s.current_itp_index.getD 0 < (s.required_itps.getD []).length := by
      rw [hreq]
      simpa using hlt
    have hadv := extract_node_advance_full (o (s.current_itp_index.getD 0))
      hreqt hpairs hdocs hlt' htxt hstd (hok _)
    obtain ⟨ha1, ha2, ha3, ha4, ha5, ha6, ha7⟩ := hadv
    obtain ⟨t, hrun, hroute_t, hci_t⟩ :=
      ih o (extract_inspection_points_node (o (s.current_itp_index.getD 0)) s) l
        (by rw [ha3, hreq]) hne (by rw [ha4]; exact hpairs) (by rw [ha5]; exact hdocs)
        (by rw [ha2]; rfl) (by rw [ha6]; exact hgen)
        (by rw [ha7]; exact htxt) (by rw [ha5]; exact hstd) hok
        (by rw [ha1]; simp only [Option.getD_some]; omega)
        (by rw [ha1]; simp only [Option.getD_some]; omega)
        extra
    refine ⟨t, ?_, hroute_t, hci_t⟩
    have harith : d + 1 + extra = (d + extra) + 1 := by omega
    rw [harith]
    unfold loopExtract
    rw [if_pos hroute]
    simp only [hrun]

end ITPGen

/-- C1: starting from a state with a non-empty `required_itps` list `l`,
both cursors at their initial position, no error set, the per-pass guard
channels present, well-formed document dicts, and an LLM that answers every
pass, the routing loop executes `extract_inspection_points_node` exactly
`l.length` times (each pass reading the item at `current_itp_index` and
advancing the cursor by one), after which `should_continue_processing`
selects the next stage `generate_individual_itp`. -/
theorem itp_loop_executes_len_times
    (o : Nat → Except String ITPGen.InspectionPointsOutput)
    (s : ITPGen.ITPGenerationState) (l : List ITPGen.RequiredItp)
    (hreq : s.required_itps = some l) (hne : l ≠ [])
    (herr : s.error = none)
    (hci : s.current_itp_index = none ∨ s.current_itp_index = some 0)
    (hcg : s.current_generation_index = none ∨ s.current_generation_index = some 0)
    (hpairs : truthyList s.itp_standards_pairs = true)
    (hdocs : truthyList s.applicable_standard_documents = true)
    (htxt : ∀ d ∈ s.txt_project_documents, d.file_name.isSome = true ∧
      d.id.isSome = true ∧ d.content.isSome = true)
    (hstd : ∀ d ∈ s.applicable_standard_documents.getD [], d.spec_id.isSome = true ∧
      d.spec_name.isSome = true ∧ d.content.isSome = true)
    (hok : ∀ n, (o n).isOk = true) :
    ∀ extra, ∃ t, ITPGen.loopExtract o (l.length + extra) s = (l.length, t) ∧
      ITPGen.should_continue_processing t = "generate_individual_itp" ∧
      t.current_itp_index = some l.length := by
  intro extra
  have hci0 : s.current_itp_index.getD 0 = 0 := by
    rcases hci with h | h <;> rw [h] <;> rfl
  have hcg0 : s.current_generation_index.getD 0 = 0 := by
    rcases hcg with h | h <;> rw [h] <;> rfl
  have herr2 : truthyStr s.error = false := by rw [herr]; rfl
  exact ITPGen.loopExtract_exact l.length o s l hreq hne hpairs hdocs herr2 hcg0
    htxt hstd hok (by omega) (by omega) extra

/-- Witness for C1: a concrete one-element loop executes the node exactly
once and then routes to `generate_individual_itp`. -/
theorem itp_loop_executes_len_times_witness :
    (([ITPGen.wItp] : List ITPGen.RequiredItp) ≠ [] ∧
     ITPGen.wLoopState.required_itps = some [ITPGen.wItp] ∧
     ITPGen.wLoopState.error = none) ∧
    ∃ t, ITPGen.loopExtract (fun _ => .ok ITPGen.wResp)
        (([ITPGen.wItp] : List ITPGen.RequiredItp).length + 0) ITPGen.wLoopState
        = (([ITPGen.wItp] : List ITPGen.RequiredItp).length, t) ∧
      ITPGen.should_continue_processing t = "generate_individual_itp" ∧
      t.current_itp_index = some ([ITPGen.wItp] : List ITPGen.RequiredItp).length :=
  ⟨⟨by decide, rfl, rfl⟩,
   itp_loop_executes_len_times (fun _ => .ok ITPGen.wResp) ITPGen.wLoopState [ITPGen.wItp]
     rfl (by decide) rfl (Or.inl rfl) (Or.inl rfl) rfl rfl
     (by decide) (by decide) (fun n => rfl) 0⟩
